import Mathlib

/-!
# Verification of the costume recommendation engine

Shallow embedding of the recommendation engine of the `celeb` repository:
the data model (`src/lib/schema.ts`), the hard-constraint filter
(`src/lib/filter.ts`), the relaxation ladder (`src/lib/relax.ts`), the scorer
(`src/lib/score.ts`), the diversity passes (`src/lib/diversify.ts`), the
fallback composer (`src/lib/fallback.ts`) and the two API routes
(`src/app/api/recommend/route.ts`, `src/app/api/more-like-this/route.ts`),
together with theorems settling the spec claims about them.

JavaScript numbers are modelled as exact rationals (`ℚ`): every arithmetic
operation performed by the engine on scores is a sum, difference, product or
division of small decimal constants, so no claim in scope depends on binary
floating-point rounding.  Randomness (`Math.random()`) is modelled by explicit
choice parameters: a call site that draws `Math.floor(Math.random() * n)`
becomes `g k % n` for an arbitrary function `g`, which ranges over exactly the
values `0 … n-1` the source can draw.
-/

namespace Celeb

open scoped List

/-- The closed `universe` enum of `CostumeSchema` (`src/lib/schema.ts`). -/
inductive CUniverse where
  | movie | tv | music | sports | internet
deriving DecidableEq, Repr

/-- The closed `era` enum, including the `any` wildcard. -/
inductive Era where
  | e70s_80s | e90s | e2000s | current | any
deriving DecidableEq, Repr

/-- Effort tiers, in ladder order. -/
inductive Effort where
  | one_item | few_fast | some_work | suffer_for_bit
deriving DecidableEq, Repr

/-- Budget tiers, in ladder order; `dont_care` is the wildcard. -/
inductive Budget where
  | lt_30 | b30_75 | b75_150 | dont_care
deriving DecidableEq, Repr

/-- Comfort tiers. -/
inductive Comfort where
  | high | medium | low
deriving DecidableEq, Repr

/-- The five vibe/goal categories of the quiz. -/
inductive Goal where
  | funny | sexy | stylish | clever | lowEffortHighPayoff
deriving DecidableEq, Repr

/-- Gender presentation tag of a costume, with the `flexible` wildcard. -/
inductive GenderPresentation where
  | masc | femme | androgynous | flexible
deriving DecidableEq, Repr

/-- The gender-preference answer of the quiz. -/
inductive GenderPref where
  | matchGender | dont_match | dont_care
deriving DecidableEq, Repr

/-- Makeup intensity tier of a costume. -/
inductive MakeupLevel where
  | nolevel | light | heavy
deriving DecidableEq, Repr

/-- Hair length cue from photo analysis. -/
inductive HairLength where
  | short | medium | long | unknown
deriving DecidableEq, Repr

/-- Hair color cue from photo analysis. -/
inductive HairColor where
  | black | brown | blonde | red | gray | white | other | unknown
deriving DecidableEq, Repr

/-- Skin tone cue from photo analysis. -/
inductive SkinTone where
  | very_light | light | medium | olive | tan | brown | dark | unknown
deriving DecidableEq, Repr

/-- Age range cue from photo analysis. -/
inductive AgeRange where
  | teen | a20s | a30s | a40s | a50s | a60plus | unknown
deriving DecidableEq, Repr

/-- Confidence of a celebrity match. -/
inductive Confidence where
  | high | medium | low
deriving DecidableEq, Repr

/-- The five per-category vibe intensities (0-3 each) of a costume. -/
structure Vibes where
  funny : ℕ
  sexy : ℕ
  stylish : ℕ
  clever : ℕ
  lowEffortHighPayoff : ℕ
deriving DecidableEq, Repr

/-- Practical constraints block of a costume. -/
structure CostumeConstraints where
  effort : Effort
  budget : Budget
  comfort : Comfort
  barFriendly : Bool
  pocketsLikely : Bool
deriving DecidableEq, Repr

/-- Requirements block of a costume (`propsLevel`, unread by the engine, is
omitted). -/
structure Requirements where
  anchorItem : String
  items : List String
  makeupLevel : MakeupLevel
  wigRequired : Bool
  facePaintRequired : Bool
deriving DecidableEq, Repr

/-- Safety flags block of a costume. -/
structure Safety where
  cultureSpecific : Bool
  religiousAttire : Bool
  politicalFigure : Bool
  controversial : Bool
  skinToneChangeImplied : Bool
deriving DecidableEq, Repr

/-- Similarity metadata (tag sets) of a costume. -/
structure Similarity where
  archetypeTags : List String
  vibeTags : List String
deriving DecidableEq, Repr

/-- A catalog entry (`CostumeSchema`).  Image pointers are resolved by an
external collaborator and play no role in any claim, so they are omitted.
`funnyExtreme` is the extra dataset field read by `ensureFunnyExtreme`
(`src/lib/diversify.ts`); it is not declared in `CostumeSchema` and is
modelled as a plain boolean. -/
structure Costume where
  id : String
  name : String
  displayTitle : String
  univ : CUniverse
  sourceTitle : Option String
  era : Era
  vibes : Vibes
  nicheScore : ℕ
  genderPresentation : GenderPresentation
  constraints : CostumeConstraints
  requirements : Requirements
  safety : Safety
  requiresBodyPaintOrFullFacePaint : Bool
  similarity : Similarity
  notes : Option String
  funnyExtreme : Bool
deriving DecidableEq, Repr

/-- Boundary flags of the quiz (`QuizResponseSchema.boundaries`). -/
structure Boundaries where
  noSkinToneChange : Bool
  avoidCultureSpecific : Bool
  avoidReligious : Bool
  avoidPolitical : Bool
  avoidFacePaint : Bool
  avoidWigs : Bool
  avoidControversial : Bool
deriving DecidableEq, Repr

/-- Practical flags of the quiz. -/
structure Practical where
  mustBeComfortable : Bool
  mustSurviveCrowdedBar : Bool
  needsPockets : Bool
  indoorOnly : Bool
deriving DecidableEq, Repr

/-- Optional owned-item booster flags of the quiz. -/
structure ClosetBoosters where
  hasLeatherJacket : Option Bool
  hasSunglasses : Option Bool
  hasSuit : Option Bool
  hasBoots : Option Bool
  hasDress : Option Bool
  hasBlazer : Option Bool
deriving DecidableEq, Repr

/-- One celebrity lookalike entry of the photo cues. -/
structure CelebrityMatch where
  name : String
  confidence : Confidence
  notes : Option String
deriving DecidableEq, Repr

/-- Derived visual cues from the optional photo analysis
(`PhotoCuesSchema`); the `build` field, unread by the engine, is omitted. -/
structure PhotoCues where
  glassesLikely : Bool
  facialHairLikely : Bool
  hairLength : HairLength
  hairColor : HairColor
  hairStyle : Option String
  skinTone : SkinTone
  features : Option (List String)
  ageRange : AgeRange
  celebrityMatches : Option (List CelebrityMatch)
  vibeKeywords : Option (List String)
deriving DecidableEq, Repr

/-- The quiz response (`QuizResponseSchema`): the Request of one
recommendation call.  The optional `userGender` and `isBlack` fields, unread
by the engine, are omitted. -/
structure QuizResponse where
  goals : List Goal
  nicheTarget : ℕ
  effort : Effort
  budget : Budget
  genderPref : GenderPref
  resemblanceTarget : ℕ
  universes : List CUniverse
  era : Era
  boundaries : Boundaries
  practical : Practical
  closetBoosters : Option ClosetBoosters
  photoCues : Option PhotoCues
  notes : Option String
deriving DecidableEq, Repr

/-! ## Hard constraint filter (`src/lib/filter.ts`) -/

/-- The per-costume predicate of `filterByConstraints`: the chain of
early-`return false` checks of the source, in source order. -/
def passesConstraints (quiz : QuizResponse) (costume : Costume) : Bool :=
  if quiz.boundaries.avoidCultureSpecific && costume.safety.cultureSpecific then false
  else if quiz.boundaries.avoidReligious && costume.safety.religiousAttire then false
  else if quiz.boundaries.avoidPolitical && costume.safety.politicalFigure then false
  else if quiz.boundaries.avoidControversial && costume.safety.controversial then false
  else if quiz.boundaries.noSkinToneChange && costume.safety.skinToneChangeImplied then false
  else if quiz.boundaries.avoidWigs && costume.requirements.wigRequired then false
  else if quiz.boundaries.avoidFacePaint &&
      (costume.requirements.facePaintRequired || costume.requiresBodyPaintOrFullFacePaint) then false
  else if decide (0 < quiz.universes.length) && decide (quiz.universes.length < 5) &&
      !(decide (costume.univ ∈ quiz.universes)) then false
  else true

/-- Filter costumes by hard constraints from quiz boundaries
(`filterByConstraints`). -/
def filterByConstraints (costumes : List Costume) (quiz : QuizResponse) : List Costume :=
  costumes.filter (passesConstraints quiz)

/-- The per-costume predicate of `filterByPractical`. -/
def passesPractical (quiz : QuizResponse) (costume : Costume) : Bool :=
  if quiz.practical.mustSurviveCrowdedBar && !costume.constraints.barFriendly then false
  else if quiz.practical.needsPockets && !costume.constraints.pocketsLikely then false
  else if quiz.practical.mustBeComfortable && decide (costume.constraints.comfort = .low) then false
  else true

/-- Apply practical constraint filters (`filterByPractical`). -/
def filterByPractical (costumes : List Costume) (quiz : QuizResponse) : List Costume :=
  costumes.filter (passesPractical quiz)

/-- Main filter function combining all hard constraints (`applyHardFilters`). -/
def applyHardFilters (costumes : List Costume) (quiz : QuizResponse) : List Costume :=
  filterByPractical (filterByConstraints costumes quiz) quiz

/-! ## Relaxation ladder (`src/lib/relax.ts`) -/

/-- Result record of the relaxation controller. -/
structure RelaxationResult where
  costumes : List Costume
  relaxationsApplied : List String
deriving Repr

/-- Bump a budget one tier up the `budgetOrder` ladder (the `"budget"` case of
`relaxQuiz`): `indexOf < length - 1` means every tier but `dont_care` moves to
its successor. -/
def budgetNext : Budget → Budget
  | .lt_30 => .b30_75
  | .b30_75 => .b75_150
  | .b75_150 => .dont_care
  | .dont_care => .dont_care

/-- Bump an effort one tier up the `effortOrder` ladder (the `"effort"` case of
`relaxQuiz`). -/
def effortNext : Effort → Effort
  | .one_item => .few_fast
  | .few_fast => .some_work
  | .some_work => .suffer_for_bit
  | .suffer_for_bit => .suffer_for_bit

/-- One iteration of the `for (const relaxation of relaxations)` switch in
`relaxQuiz`.  An unrecognized step string leaves the quiz unchanged (the
switch has no default case). -/
def relaxStep (quiz : QuizResponse) (step : String) : QuizResponse :=
  if step = "era" then { quiz with era := .any }
  else if step = "universe" then { quiz with universes := [] }
  else if step = "budget" then { quiz with budget := budgetNext quiz.budget }
  else if step = "effort" then { quiz with effort := effortNext quiz.effort }
  else quiz

/-- Create a relaxed copy of the quiz response (`relaxQuiz`): a deep clone with
the listed relaxation steps applied in order. -/
def relaxQuiz (quiz : QuizResponse) (relaxations : List String) : QuizResponse :=
  relaxations.foldl relaxStep quiz

/-- The fixed relaxation ladder of `applyRelaxationLadder`. -/
def relaxationSteps : List String := ["era", "universe", "budget", "effort"]

/-- The step loop of `applyRelaxationLadder`: push the next step onto the
applied list, re-filter the original full catalog under the cumulatively
relaxed quiz, and stop as soon as the floor is met. -/
def relaxLoop (allCostumes : List Costume) (quiz : QuizResponse) (minResults : ℕ) :
    List String → List String → List Costume → RelaxationResult
  | [], applied, filtered => ⟨filtered, applied⟩
  | step :: rest, applied, _ =>
    let applied' := applied ++ [step]
    let filtered' := applyHardFilters allCostumes (relaxQuiz quiz applied')
    if minResults ≤ filtered'.length then ⟨filtered', applied'⟩
    else relaxLoop allCostumes quiz minResults rest applied' filtered'

/-- Apply relaxation ladder to get enough results (`applyRelaxationLadder`).
The route calls it with `minResults = 5`. -/
def applyRelaxationLadder (allCostumes : List Costume) (quiz : QuizResponse)
    (minResults : ℕ) : RelaxationResult :=
  let filtered := applyHardFilters allCostumes quiz
  if minResults ≤ filtered.length then ⟨filtered, []⟩
  else relaxLoop allCostumes quiz minResults relaxationSteps [] filtered

/-! ## Scoring engine (`src/lib/score.ts`) -/

/-- Case-insensitive substring test: the JavaScript `String.prototype.includes`
used throughout the scorer (after explicit `toLowerCase` calls in the
source). -/
def strContains (s pat : String) : Bool :=
  decide (pat.toList <:+: s.toList)

/-- A costume annotated with its computed score (`ScoredCostume`). -/
structure ScoredCostume where
  costume : Costume
  score : ℚ
deriving DecidableEq, Repr

/-- The fixed weight table `WEIGHTS` of `src/lib/score.ts`. -/
structure Weights where
  vibeMatch : ℚ := 3
  nicheMatch : ℚ := 2
  effortMatch : ℚ := 3/2
  budgetMatch : ℚ := 3/2
  genderMatch : ℚ := 1
  practicalBonus : ℚ := 1
  resemblanceMatch : ℚ := 1
  closetBooster : ℚ := 1/2
  photoCues : ℚ := 1/2
  eraMatch : ℚ := 1/2
  celebrityMatch : ℚ := 5
  skinToneMatch : ℚ := 3/2
  ageRangeMatch : ℚ := 1
  vibeKeywordMatch : ℚ := 1

/-- The single `WEIGHTS` constant. -/
def WEIGHTS : Weights := {}

/-- Intensity of one vibe category (the `vibeMap` lookup of `scoreVibes`,
which is total over the five goals). -/
def vibeValue (v : Vibes) : Goal → ℕ
  | .funny => v.funny
  | .sexy => v.sexy
  | .stylish => v.stylish
  | .clever => v.clever
  | .lowEffortHighPayoff => v.lowEffortHighPayoff

/-- Calculate vibe match score based on selected goals (`scoreVibes`).
Division by a zero goal count cannot occur for schema-valid quizzes
(1-2 goals); `ℚ` division by zero yields 0 there where JS would yield NaN. -/
def scoreVibes (costume : Costume) (goals : List Goal) : ℚ :=
  (goals.foldl (fun acc g => acc + (vibeValue costume.vibes g : ℚ) / 3) 0) / goals.length

/-- Calculate niche match score (`scoreNiche`).  The source divides by 6,
with the comment "Using 6 as max difference for 1-7 scale", although
`NicheScoreSchema` admits 1-10. -/
def scoreNiche (costume : Costume) (nicheTarget : ℕ) : ℚ :=
  1 - |(costume.nicheScore : ℚ) - (nicheTarget : ℚ)| / 6

/-- Position in the `effortOrder` ladder. -/
def effortIndex : Effort → ℕ
  | .one_item => 0
  | .few_fast => 1
  | .some_work => 2
  | .suffer_for_bit => 3

/-- Calculate effort match score (`scoreEffort`). -/
def scoreEffort (costume : Costume) (effort : Effort) : ℚ :=
  let userIndex := effortIndex effort
  let costumeIndex := effortIndex costume.constraints.effort
  if costumeIndex ≤ userIndex then 1
  else if costumeIndex = userIndex + 1 then 1/2
  else 1/10

/-- Position in the three-element `budgetOrder` of `scoreBudget`; the
`dont_care` case is unreachable there (both wildcards short-circuit first). -/
def budgetIndex : Budget → ℕ
  | .lt_30 => 0
  | .b30_75 => 1
  | .b75_150 => 2
  | .dont_care => 3

/-- Calculate budget match score (`scoreBudget`). -/
def scoreBudget (costume : Costume) (budget : Budget) : ℚ :=
  if budget = .dont_care then 1
  else if costume.constraints.budget = .dont_care then 1
  else
    let userIndex := budgetIndex budget
    let costumeIndex := budgetIndex costume.constraints.budget
    if costumeIndex ≤ userIndex then 1
    else if costumeIndex = userIndex + 1 then 1/2
    else 1/10

/-- Calculate practical constraint bonus (`scorePractical`):
average of per-flag credit over the flags that are on; zero flags on gives a
zero contribution. -/
def scorePractical (costume : Costume) (quiz : QuizResponse) : ℚ :=
  let acc0 : ℚ × ℕ := (0, 0)
  let acc1 :=
    if quiz.practical.mustBeComfortable then
      (acc0.1 + (if costume.constraints.comfort = .high then 1
                 else if costume.constraints.comfort = .medium then 1/2 else 0), acc0.2 + 1)
    else acc0
  let acc2 :=
    if quiz.practical.mustSurviveCrowdedBar then
      (acc1.1 + (if costume.constraints.barFriendly then 1 else 0), acc1.2 + 1)
    else acc1
  let acc3 :=
    if quiz.practical.needsPockets then
      (acc2.1 + (if costume.constraints.pocketsLikely then 1 else 0), acc2.2 + 1)
    else acc2
  if 0 < acc3.2 then acc3.1 / acc3.2 else 0

/-- The lowercased anchor/items/archetype text blob `allItems` built inside
`scoreClosetBoosters`. -/
def allItemsText (costume : Costume) : String :=
  String.intercalate " "
    (costume.requirements.anchorItem.toLower ::
      (costume.requirements.items.map String.toLower ++
        costume.similarity.archetypeTags.map String.toLower))

/-- The fixed `itemKeywords` table of `scoreClosetBoosters`, in JS object
insertion order. -/
def itemKeywords : List ((ClosetBoosters → Option Bool) × List String) :=
  [(ClosetBoosters.hasLeatherJacket, ["leather", "jacket", "biker"]),
   (ClosetBoosters.hasSunglasses, ["sunglasses", "shades", "glasses"]),
   (ClosetBoosters.hasSuit, ["suit", "blazer", "formal"]),
   (ClosetBoosters.hasBoots, ["boots", "boot"]),
   (ClosetBoosters.hasDress, ["dress", "gown"]),
   (ClosetBoosters.hasBlazer, ["blazer", "jacket"])]

/-- Calculate closet booster score (`scoreClosetBoosters`). -/
def scoreClosetBoosters (costume : Costume) (closetBoosters : Option ClosetBoosters) : ℚ :=
  match closetBoosters with
  | none => 0
  | some cb =>
    let counts := itemKeywords.foldl
      (fun (mt : ℕ × ℕ) pair =>
        if pair.1 cb = some true then
          (mt.1 + (if pair.2.any (fun kw => strContains (allItemsText costume) kw) then 1 else 0),
           mt.2 + 1)
        else mt)
      (0, 0)
    if 0 < counts.2 then (counts.1 : ℚ) / counts.2 else 0

/-- Calculate era match score (`scoreEra`). -/
def scoreEra (costume : Costume) (era : Era) : ℚ :=
  if era = .any ∨ costume.era = .any then 1
  else if costume.era = era then 1 else 1/2

/-- Calculate gender presentation match score (`scoreGenderPresentation`).
`scoreCostume` always calls it without a `userPresentation`, so the 0.7
neutral branch applies whenever the preference is active and the costume is
neither flexible nor androgynous. -/
def scoreGenderPresentation (costume : Costume) (genderPref : GenderPref)
    (userPresentation : Option GenderPresentation) : ℚ :=
  if genderPref = .dont_care then 1
  else if costume.genderPresentation = .flexible then 1
  else if costume.genderPresentation = .androgynous then 9/10
  else
    match userPresentation with
    | none => 7/10
    | some up =>
      if genderPref = .matchGender then
        if costume.genderPresentation = up then 1 else 3/10
      else
        if costume.genderPresentation ≠ up then 1 else 3/10

/-- The anchor/items/archetype list scanned for glasses keywords in
`scoreResemblance` and `scorePhotoCues`; the source lowercases the anchor and
items but scans the archetype tags verbatim. -/
def glassesScanList (costume : Costume) : List String :=
  costume.requirements.anchorItem.toLower ::
    (costume.requirements.items.map String.toLower ++ costume.similarity.archetypeTags)

/-- Whether the costume involves glasses or shades (`costumeNeedsGlasses` /
`hasGlassesItem`). -/
def costumeNeedsGlasses (costume : Costume) : Bool :=
  (glassesScanList costume).any
    (fun s => strContains s "glasses" || strContains s "shades")

/-- Calculate resemblance match score (`scoreResemblance`). -/
def scoreResemblance (costume : Costume) (resemblanceTarget : ℕ)
    (photoCues : Option PhotoCues) : ℚ :=
  let lowResemblance := resemblanceTarget ≤ 3
  let highResemblance := 5 ≤ resemblanceTarget
  if lowResemblance then
    let s0 : ℚ := 1
    let s1 := if costume.requirements.wigRequired then s0 - 3/10 else s0
    let s2 := if costume.requirements.makeupLevel = .heavy then s1 - 2/10 else s1
    let s3 := if costume.requirements.facePaintRequired then s2 - 3/10 else s2
    let s4 := if costume.requiresBodyPaintOrFullFacePaint then s3 - 3/10 else s3
    max 0 s4
  else if highResemblance then
    let s0 : ℚ := 1/2
    let s :=
      match photoCues with
      | some pc =>
        let s1 := if costumeNeedsGlasses costume && pc.glassesLikely then s0 + 2/10 else s0
        if !costume.requirements.wigRequired then s1 + 2/10
        else if pc.hairLength ≠ .unknown then s1 + 1/10
        else s1
      | none =>
        if !costume.requirements.wigRequired then s0 + 2/10 else s0
    min 1 s
  else 7/10

/-- The JS enum string of a hair color, as matched inside costume text. -/
def hairColorStr : HairColor → String
  | .black => "black"
  | .brown => "brown"
  | .blonde => "blonde"
  | .red => "red"
  | .gray => "gray"
  | .white => "white"
  | .other => "other"
  | .unknown => "unknown"

/-- The lowercased notes/archetype/vibe text blob `costumeText` of
`scorePhotoCues` (also `costumeMetadata` of `scoreCelebrityMatch`). -/
def costumeText (costume : Costume) : String :=
  (String.intercalate " "
    ((costume.notes.getD "") ::
      (costume.similarity.archetypeTags ++ costume.similarity.vibeTags))).toLower

/-- Calculate photo cues match score (`scorePhotoCues`). -/
def scorePhotoCues (costume : Costume) (photoCues : Option PhotoCues) : ℚ :=
  match photoCues with
  | none => 0
  | some pc =>
    let acc0 : ℚ × ℕ := (0, 0)
    let acc1 :=
      if pc.glassesLikely then
        (acc0.1 + (if costumeNeedsGlasses costume then 1 else 0), acc0.2 + 1)
      else acc0
    let acc2 :=
      if pc.hairColor ≠ .unknown then
        (acc1.1 +
          (if strContains (costumeText costume) (hairColorStr pc.hairColor) then 1
           else if !costume.requirements.wigRequired then 1/2 else 0),
         acc1.2 + 1)
      else acc1
    let acc3 :=
      if costume.requirements.wigRequired && pc.hairLength ≠ .unknown then
        (acc2.1 + 3/10, acc2.2 + 1)
      else if !costume.requirements.wigRequired then
        (acc2.1 + 1, acc2.2 + 1)
      else acc2
    if 0 < acc3.2 then acc3.1 / acc3.2 else 0

/-- Credit for a direct celebrity name match, by confidence. -/
def celebDirectCredit : Confidence → ℚ
  | .high => 1
  | .medium => 8/10
  | .low => 6/10

/-- Calculate celebrity match score (`scoreCelebrityMatch`).  The source's
`costumeSource` local is computed but never read, and its skin-tone grouping
has no analogue here. -/
def scoreCelebrityMatch (costume : Costume) (photoCues : Option PhotoCues) : ℚ :=
  match photoCues with
  | none => 0
  | some pc =>
    match pc.celebrityMatches with
    | none => 0
    | some ms =>
      if ms.isEmpty then 0
      else
        let costumeName := costume.name.toLower
        let costumeTitle := costume.displayTitle.toLower
        let meta := costumeText costume
        let fromLoop := ms.findSome? (fun m =>
          let celebName := m.name.toLower
          let celebParts := celebName.splitOn " "
          if strContains costumeName celebName || strContains costumeTitle celebName then
            some (celebDirectCredit m.confidence)
          else if celebParts.any (fun part => 3 < part.length && strContains meta part) then
            some (if m.confidence = .high then 7/10 else 1/2)
          else none)
        match fromLoop with
        | some v => v
        | none =>
          let matchNotes := (String.intercalate " " (ms.map (fun m => m.notes.getD ""))).toLower
          let costumeVibeTags := costume.similarity.vibeTags.map String.toLower
          let vibeOverlap := (costumeVibeTags.filter (fun tag => strContains matchNotes tag)).length
          if 0 < vibeOverlap then 3/10 * min ((vibeOverlap : ℚ) / 2) 1 else 0

/-- The lowercased notes/archetype blob scanned by `scoreSkinTone` and
`scoreAgeRange`. -/
def notesArchetypeText (costume : Costume) : String :=
  (String.intercalate " "
    ((costume.notes.getD "") :: costume.similarity.archetypeTags)).toLower

/-- Calculate skin tone match score (`scoreSkinTone`).  The tone-grouping
locals of the source are dead code (never read) and are not modelled. -/
def scoreSkinTone (costume : Costume) (photoCues : Option PhotoCues) : ℚ :=
  match photoCues with
  | none => 0
  | some pc =>
    if pc.skinTone = .unknown then 0
    else
      let meta := notesArchetypeText costume
      if strContains meta "any skin" || strContains meta "universal" then 8/10
      else 1/2

/-- The `ageHints` table of `scoreAgeRange`. -/
def ageHints : AgeRange → List String
  | .teen => ["teen", "young", "youth", "kid", "student"]
  | .a20s => ["young", "20s", "twenties"]
  | .a30s => ["30s", "thirties", "adult"]
  | .a40s => ["40s", "forties", "mature"]
  | .a50s => ["50s", "fifties", "older"]
  | .a60plus => ["elderly", "senior", "old", "60s", "70s"]
  | .unknown => []

/-- Calculate age range match score (`scoreAgeRange`). -/
def scoreAgeRange (costume : Costume) (photoCues : Option PhotoCues) : ℚ :=
  match photoCues with
  | none => 0
  | some pc =>
    if pc.ageRange = .unknown then 0
    else
      let meta := notesArchetypeText costume
      if (ageHints pc.ageRange).any (fun hint => strContains meta hint) then 1
      else 6/10

/-- Calculate vibe/aesthetic keyword match (`scoreVibeKeywords`). -/
def scoreVibeKeywords (costume : Costume) (photoCues : Option PhotoCues) : ℚ :=
  match photoCues with
  | none => 0
  | some pc =>
    match pc.vibeKeywords with
    | none => 0
    | some kws =>
      if kws.isEmpty then 0
      else
        let costumeVibes :=
          (costume.similarity.vibeTags ++ costume.similarity.archetypeTags).map String.toLower
        let matchCount := (kws.filter (fun kw =>
          costumeVibes.any (fun v =>
            strContains v kw.toLower || strContains kw.toLower v))).length
        (matchCount : ℚ) / kws.length

/-- Calculate total weighted score for a costume (`scoreCostume`). -/
def scoreCostume (costume : Costume) (quiz : QuizResponse) : ℚ :=
  scoreVibes costume quiz.goals * WEIGHTS.vibeMatch +
  scoreNiche costume quiz.nicheTarget * WEIGHTS.nicheMatch +
  scoreEffort costume quiz.effort * WEIGHTS.effortMatch +
  scoreBudget costume quiz.budget * WEIGHTS.budgetMatch +
  scoreGenderPresentation costume quiz.genderPref none * WEIGHTS.genderMatch +
  scorePractical costume quiz * WEIGHTS.practicalBonus +
  scoreResemblance costume quiz.resemblanceTarget quiz.photoCues * WEIGHTS.resemblanceMatch +
  scoreClosetBoosters costume quiz.closetBoosters * WEIGHTS.closetBooster +
  scorePhotoCues costume quiz.photoCues * WEIGHTS.photoCues +
  scoreEra costume quiz.era * WEIGHTS.eraMatch +
  scoreCelebrityMatch costume quiz.photoCues * WEIGHTS.celebrityMatch +
  scoreSkinTone costume quiz.photoCues * WEIGHTS.skinToneMatch +
  scoreAgeRange costume quiz.photoCues * WEIGHTS.ageRangeMatch +
  scoreVibeKeywords costume quiz.photoCues * WEIGHTS.vibeKeywordMatch

/-- The descending-by-score order used by `scored.sort((a, b) => b.score - a.score)`. -/
def scoreGE (a b : ScoredCostume) : Prop := b.score ≤ a.score

instance : DecidableRel scoreGE := fun a b => inferInstanceAs (Decidable (b.score ≤ a.score))

/-- The stable descending sort of `scoreAndRank`.  ECMAScript 2019 requires
`Array.prototype.sort` to be stable, and a stable sort under a total preorder
comparator has a unique output, here realized by `List.insertionSort` (whose
`orderedInsert` keeps an earlier element in front of later elements comparing
equal). -/
def sortByScoreDesc (scored : List ScoredCostume) : List ScoredCostume :=
  scored.insertionSort scoreGE

/-- Score and sort all costumes, return top N (`scoreAndRank`; the routes call
it with `topN` 30 and 50). -/
def scoreAndRank (costumes : List Costume) (quiz : QuizResponse) (topN : ℕ) :
    List ScoredCostume :=
  let scored := costumes.map (fun costume => ⟨costume, scoreCostume costume quiz⟩)
  (sortByScoreDesc scored).take topN

/-! ## Diversity passes (`src/lib/diversify.ts`)

Each pass that draws randomness receives the drawn values as explicit
parameters (see the header comment). -/

/-- The destructuring swap `[r[i], r[j]] = [r[j], r[i]]` of `shuffleArray`;
out-of-range indices (which the shuffle never produces) leave the list
unchanged. -/
def listSwap {α : Type} (xs : List α) (i j : ℕ) : List α :=
  match xs.get? i, xs.get? j with
  | some a, some b => (xs.set i b).set j a
  | _, _ => xs

/-- The descending loop of the Fisher-Yates `shuffleArray`: performs the swaps
for positions `i, i-1, …, 1`; at each position the drawn index
`Math.floor(Math.random() * (i + 1))` is modelled as `g i % (i + 1)`. -/
def fisherYatesAux {α : Type} (g : ℕ → ℕ) (xs : List α) : ℕ → List α
  | 0 => xs
  | i + 1 => fisherYatesAux g (listSwap xs (i + 1) (g (i + 1) % (i + 2))) i

/-- Fisher-Yates shuffle for arrays (`shuffleArray`). -/
def shuffleArray {α : Type} (g : ℕ → ℕ) (xs : List α) : List α :=
  fisherYatesAux g xs (xs.length - 1)

/-- The bucket loop of `addRandomShuffle`: shuffle each consecutive chunk of
`bucketSize` elements, the chunk starting at position `i` using the random
draws `g i`.  Structural recursion on a fuel bounded below by the list
length replaces the `i += bucketSize` loop (which diverges for
`bucketSize = 0`; the route always passes 5). -/
def shuffleBuckets {α : Type} (g : ℕ → ℕ → ℕ) (bucketSize : ℕ) :
    ℕ → ℕ → List α → List α
  | 0, _, xs => xs
  | fuel + 1, i, xs =>
    if xs.isEmpty then xs
    else
      shuffleArray (g i) (xs.take bucketSize) ++
        shuffleBuckets g bucketSize fuel (i + bucketSize) (xs.drop bucketSize)

/-- Add controlled randomization to the candidate list (`addRandomShuffle`). -/
def addRandomShuffle (g : ℕ → ℕ → ℕ) (candidates : List ScoredCostume)
    (bucketSize : ℕ) : List ScoredCostume :=
  if candidates.length ≤ 3 then candidates
  else shuffleBuckets g bucketSize candidates.length 0 candidates

/-- Insert the elements of `ts` not yet present into the tag set, modelled as
a duplicate-free list (`archetypesInTop10.add(tag)` on a JS `Set`). -/
def addTags (tags : List String) (ts : List String) : List String :=
  ts.foldl (fun acc t => if acc.contains t then acc else acc ++ [t]) tags

/-- The promotion loop of `ensureDiversity`: walk the remainder, splice each
candidate contributing a new archetype tag in before position 10
(`result.splice(9, 0, candidate)`, whose JS clamping is `min 9 length`), and
break once the distinct-tag threshold is met. -/
def promoteLoop (minArchetypes : ℕ) :
    List ScoredCostume → List String → List ScoredCostume → List ScoredCostume
  | [], _, result => result
  | c :: rest, tags, result =>
    let newArchetypes := c.costume.similarity.archetypeTags.filter
      (fun t => !tags.contains t)
    if newArchetypes.isEmpty then promoteLoop minArchetypes rest tags result
    else
      let result' := result.insertIdx (min 9 result.length) c
      let tags' := addTags tags newArchetypes
      if minArchetypes ≤ tags'.length then result'
      else promoteLoop minArchetypes rest tags' result'

/-- Ensure diversity in the candidate list (`ensureDiversity`); the route
uses the default `minArchetypes = 2`. -/
def ensureDiversity (candidates : List ScoredCostume) (minArchetypes : ℕ) :
    List ScoredCostume :=
  if candidates.length ≤ 3 then candidates
  else
    let top10 := candidates.take 10
    let archetypesInTop10 :=
      top10.foldl (fun acc c => addTags acc c.costume.similarity.archetypeTags) []
    if minArchetypes ≤ archetypesInTop10.length then candidates
    else
      let remainingCandidates := candidates.drop 10
      let result := promoteLoop minArchetypes remainingCandidates archetypesInTop10 top10
      let includedIds := result.map (fun c => c.costume.id)
      result ++ remainingCandidates.filter (fun c => !includedIds.contains c.costume.id)

/-- Ensure universe diversity when the user selected "Surprise me"
(`ensureUniverseDiversity`). -/
def ensureUniverseDiversity (candidates : List ScoredCostume)
    (universes : List CUniverse) : List ScoredCostume :=
  if 0 < universes.length && universes.length < 5 then candidates
  else if candidates.length ≤ 3 then candidates
  else
    match candidates with
    | [] => candidates
    | c0 :: _ =>
      let top3Universes := (candidates.take 3).map (fun c => c.costume.univ)
      if 2 ≤ top3Universes.dedup.length then candidates
      else
        let dominantUniverse := c0.costume.univ
        let remaining := candidates.drop 3
        match remaining.findIdx? (fun c => decide (c.costume.univ ≠ dominantUniverse)) with
        | none => candidates
        | some i =>
          match candidates.get? (3 + i) with
          | none => candidates
          | some swapped => (candidates.eraseIdx (3 + i)).insertIdx 2 swapped

/-- Ensure at least one funny/extreme costume in the top 3
(`ensureFunnyExtreme`); the random pick among the first
`min 10 count` qualifying indices is modelled by the parameter `g`. -/
def ensureFunnyExtreme (g : ℕ) (candidates : List ScoredCostume) :
    List ScoredCostume :=
  if candidates.length ≤ 3 then candidates
  else if (candidates.take 3).any (fun c => c.costume.funnyExtreme) then candidates
  else
    let remaining := candidates.drop 3
    let funnyExtremeIndices :=
      (remaining.enum.filter (fun p => p.2.costume.funnyExtreme)).map (fun p => p.1)
    if funnyExtremeIndices.isEmpty then candidates
    else
      let topAbsurdCount := min 10 funnyExtremeIndices.length
      let topAbsurdIndices := funnyExtremeIndices.take topAbsurdCount
      let randomIndex := topAbsurdIndices.getD (g % topAbsurdIndices.length) 0
      match candidates.get? (3 + randomIndex) with
      | none => candidates
      | some funnyCandidate => (candidates.eraseIdx (3 + randomIndex)).insertIdx 2 funnyCandidate

/-! ## Fallback composer (`src/lib/fallback.ts`) -/

/-- Difficulty tier of a recommendation. -/
inductive Difficulty where
  | easy | mediumTier | hard
deriving DecidableEq, Repr

/-- Determine difficulty from effort constraint (`getDifficulty`). -/
def getDifficulty : Effort → Difficulty
  | .one_item => .easy
  | .few_fast => .easy
  | .some_work => .mediumTier
  | .suffer_for_bit => .hard

/-- The `WHY_TEMPLATES` variant library, keyed as in the source. -/
def whyTemplates : String → List String
  | "lowEffort" =>
    ["One piece does the heavy lifting here.", "Minimal effort, maximum recognition.",
     "The lazy genius move.", "You wanted easy—this delivers."]
  | "stylish" =>
    ["Stylish enough to wear outside Halloween.", "This reads fashion, not costume.",
     "The kind of look that just works.", "Sharp without trying too hard."]
  | "funny" =>
    ["Gets laughs without explanation.", "The bit commits itself.",
     "Comedy through recognition.", "Funny to everyone, not just your friends."]
  | "clever" =>
    ["For the people who get it.", "A reference that rewards the audience.",
     "Smart without being insufferable.", "The nod-and-smile costume."]
  | "sexy" =>
    ["This one's for the attention.", "Hot in a way that makes sense.",
     "Confidence is the main accessory.", "Looks good, knows it."]
  | "niche" =>
    ["Deep cut for the devoted.", "Only the real ones will know.",
     "Not for the casual viewer."]
  | "recognizable" =>
    ["Instant recognition, zero explanation.", "Everyone gets this one.",
     "The crowd-pleaser."]
  | "budgetFriendly" =>
    ["Easy on the wallet.", "Most of this is already in your closet.",
     "Budget-friendly without looking cheap."]
  | "barFriendly" =>
    ["Survives a crowded bar.", "Durable enough for a long night.",
     "Won't fall apart by midnight."]
  | _ => []

/-- The template key of a goal inside `generateWhyItMatches`
(`lowEffortHighPayoff` maps to `lowEffort`; every goal has templates, so the
`break` fires on the first goal). -/
def goalTemplateKey : Goal → String
  | .funny => "funny"
  | .sexy => "sexy"
  | .stylish => "stylish"
  | .clever => "clever"
  | .lowEffortHighPayoff => "lowEffort"

/-- Pick a random item from an array (`pickRandom`); the draw at call site `k`
is modelled as `rho k % length`. -/
def pickRandom (rho : ℕ → ℕ) (k : ℕ) (arr : List String) : String :=
  arr.getD (rho k % arr.length) ""

/-- Generate "why it matches" bullets (`generateWhyItMatches`). -/
def generateWhyItMatches (rho : ℕ → ℕ) (costume : Costume) (quiz : QuizResponse) :
    List String :=
  let bullets0 : List String :=
    match quiz.goals with
    | [] => []
    | goal :: _ => [pickRandom rho 0 (whyTemplates (goalTemplateKey goal))]
  let bullets1 :=
    if costume.nicheScore ≤ 2 then bullets0 ++ [pickRandom rho 1 (whyTemplates "recognizable")]
    else if 6 ≤ costume.nicheScore then bullets0 ++ [pickRandom rho 1 (whyTemplates "niche")]
    else bullets0
  let bullets2 :=
    if costume.constraints.budget = .lt_30 ∨ costume.constraints.budget = .b30_75 then
      bullets1 ++ [pickRandom rho 2 (whyTemplates "budgetFriendly")]
    else if costume.constraints.barFriendly && quiz.practical.mustSurviveCrowdedBar then
      bullets1 ++ [pickRandom rho 2 (whyTemplates "barFriendly")]
    else bullets1
  let bullets3 :=
    if bullets2.length < 2 then bullets2 ++ [pickRandom rho 3 (whyTemplates "stylish")]
    else bullets2
  bullets3.take 3

/-- A recommendation record (`RecommendationSchema`) minus the `image` field,
which is attached by the external image resolver (a collaborator that never
fails, §6 of the spec) and plays no role in any claim. -/
structure Recommendation where
  costumeId : String
  title : String
  whyItMatches : List String
  difficulty : Difficulty
  anchorItem : String
  shoppingList : List String
  substitutions : Option (List String)
  warnings : Option (List String)
  similarityTags : List String
deriving DecidableEq, Repr

/-- Generate fallback recommendation for a costume
(`generateFallbackRecommendation`). -/
def generateFallbackRecommendation (rho : ℕ → ℕ) (costume : Costume)
    (quiz : QuizResponse) : Recommendation where
  costumeId := costume.id
  title := costume.displayTitle
  whyItMatches := generateWhyItMatches rho costume quiz
  difficulty := getDifficulty costume.constraints.effort
  anchorItem := costume.requirements.anchorItem
  shoppingList := costume.requirements.items.take 7
  substitutions := none
  warnings :=
    if costume.requiresBodyPaintOrFullFacePaint then
      some ["This needs body/face paint—commit or skip."]
    else none
  similarityTags := costume.similarity.archetypeTags ++ costume.similarity.vibeTags

/-- Generate fallback recommendations from scored candidates
(`generateFallbackRecommendations`); `none` models the
`throw new Error("Not enough candidates for fallback")` of the source. -/
def generateFallbackRecommendations (rho : ℕ → ℕ) (candidates : List ScoredCostume)
    (quiz : QuizResponse) : Option (Recommendation × Recommendation × Recommendation) :=
  match candidates.take 3 with
  | [a, b, c] =>
    some (generateFallbackRecommendation rho a.costume quiz,
          generateFallbackRecommendation (fun k => rho (4 + k)) b.costume quiz,
          generateFallbackRecommendation (fun k => rho (8 + k)) c.costume quiz)
  | _ => none

/-! ## External text generator (`src/lib/llm.ts`)

`src/lib/llm.ts` is exported by `src/lib/index.ts` and called by the
recommend route but is not itself under `src/`; it is modelled from the
spec below. -/

/-- One selection returned by the external text generator. -/
structure LlmSelection where
  costumeId : String
  whyItMatches : List String
  shoppingList : List String
deriving DecidableEq, Repr

/-- Modelled from the spec: the validation inside `src/lib/llm.ts`
(`generateRecommendations`), which is missing from `src/`.  Per §6 of the
spec the generator "must return exactly 3 selections whose IDs are a subset
of the shortlist, each with 2-3 why bullets and a 3-7 item shopping list,
free of a banned-phrase list; any violation … is treated as total failure". -/
def validLlmOutput (banned : List String) (shortlist : List ScoredCostume)
    (recs : List LlmSelection) : Bool :=
  decide (recs.length = 3) &&
  decide ((recs.map (fun r => r.costumeId)).Nodup) &&
  recs.all (fun r => shortlist.any (fun c => c.costume.id == r.costumeId)) &&
  recs.all (fun r =>
    decide (2 ≤ r.whyItMatches.length) && decide (r.whyItMatches.length ≤ 3) &&
    decide (3 ≤ r.shoppingList.length) && decide (r.shoppingList.length ≤ 7) &&
    !(banned.any (fun p => r.whyItMatches.any (fun s => strContains s p))))

/-- Modelled from the spec: `generateRecommendations` of `src/lib/llm.ts`.
The raw generator outcome (a response, or `none` for timeout/invalid JSON) is
a parameter; a raw failure or a validation failure is a thrown error,
modelled as `none`. -/
def generateRecommendations (banned : List String) (shortlist : List ScoredCostume)
    (llmRaw : Option (List LlmSelection)) : Option (List LlmSelection) :=
  match llmRaw with
  | none => none
  | some recs => if validLlmOutput banned shortlist recs then some recs else none

/-- Modelled from the spec: `enrichRecommendations` of `src/lib/llm.ts` joins
each validated selection with its shortlist costume to build the display
record (the route then attaches images).  The lookup cannot miss for
validated output; a miss is dropped. -/
def enrichRecommendations (recs : List LlmSelection) (shortlist : List ScoredCostume) :
    List Recommendation :=
  recs.filterMap (fun r =>
    (shortlist.find? (fun c => c.costume.id == r.costumeId)).map (fun c =>
      { costumeId := r.costumeId
        title := c.costume.displayTitle
        whyItMatches := r.whyItMatches
        difficulty := getDifficulty c.costume.constraints.effort
        anchorItem := c.costume.requirements.anchorItem
        shoppingList := r.shoppingList
        substitutions := none
        warnings :=
          if c.costume.requiresBodyPaintOrFullFacePaint then
            some ["This needs body/face paint—commit or skip."]
          else none
        similarityTags :=
          c.costume.similarity.archetypeTags ++ c.costume.similarity.vibeTags }))

/-! ## The recommend route (`src/app/api/recommend/route.ts`)

Rate limiting, JSON parsing and schema validation happen before the core
pipeline and are out of scope; the dataset loader (`src/lib/dataset.ts`, also
not under `src/`) supplies the validated catalog as the `allCostumes`
parameter. -/

/-- Error outcomes of a route: a 404-style "no costumes match" / "not found"
response, or the outer catch-all 500. -/
inductive ApiError where
  | noMatch | internalError
deriving DecidableEq, Repr

/-- The `meta` block of a recommend response; `mode` is the literal string the
route stores (`"llm"` or `"fallback"`, cf. `RecommendResponseSchema`). -/
structure RecommendMeta where
  mode : String
  relaxationsApplied : Option (List String)
deriving DecidableEq, Repr

/-- A recommend response.  The source builds
`[withImages[0], withImages[1], withImages[2]]`; the list here is proved to
have exactly those three entries whenever the route succeeds. -/
structure RecommendResponse where
  recommendations : List Recommendation
  meta : RecommendMeta
deriving DecidableEq, Repr

/-- The shortlist handed to the generator-or-fallback stage of
`POST /api/recommend`: the relaxed pool, scored and ranked to 30, bucket
shuffled, run through the three diversity passes and trimmed to 20. -/
def recommendShortlist (allCostumes : List Costume) (quiz : QuizResponse)
    (gShuffle : ℕ → ℕ → ℕ) (gFunny : ℕ) : List ScoredCostume :=
  let candidates0 := scoreAndRank (applyRelaxationLadder allCostumes quiz 5).costumes quiz 30
  let candidates1 := addRandomShuffle gShuffle candidates0 5
  let candidates2 := ensureDiversity candidates1 2
  let candidates3 := ensureUniverseDiversity candidates2 quiz.universes
  let candidates4 := ensureFunnyExtreme gFunny candidates3
  candidates4.take 20

/-- The core of `POST /api/recommend` after input validation: relaxation
ladder, scoring, diversification, the generator-or-fallback stage, and the
response assembly.  `llmRaw` is the external generator outcome, `gShuffle`,
`gFunny` and `rho` the random draws. -/
def recommendRoute (allCostumes : List Costume) (quiz : QuizResponse)
    (gShuffle : ℕ → ℕ → ℕ) (gFunny : ℕ) (rho : ℕ → ℕ) (banned : List String)
    (llmRaw : Option (List LlmSelection)) : Except ApiError RecommendResponse :=
  let rr := applyRelaxationLadder allCostumes quiz 5
  if rr.costumes.isEmpty then .error .noMatch
  else
    let candidates := recommendShortlist allCostumes quiz gShuffle gFunny
    let relaxMeta : Option (List String) :=
      if rr.relaxationsApplied.isEmpty then none else some rr.relaxationsApplied
    match generateRecommendations banned candidates llmRaw with
    | some llmRecs =>
      .ok ⟨enrichRecommendations llmRecs candidates, ⟨"llm", relaxMeta⟩⟩
    | none =>
      match generateFallbackRecommendations rho candidates quiz with
      | some (r0, r1, r2) => .ok ⟨[r0, r1, r2], ⟨"fallback", relaxMeta⟩⟩
      | none => .error .internalError

/-! ## The more-like-this route (`src/app/api/more-like-this/route.ts`) -/

/-- Step an effort one tier down (`"easier"`: `indexOf > 0` moves to the
predecessor). -/
def effortPrev : Effort → Effort
  | .one_item => .one_item
  | .few_fast => .one_item
  | .some_work => .few_fast
  | .suffer_for_bit => .some_work

/-- Apply direction adjustments to the quiz (`applyDirection`).  The niche
arithmetic `Math.max(1, t - 2)` / `Math.min(7, t + 2)` coincides with the
`ℕ` expressions below for every `t : ℕ`. -/
def applyDirection (quiz : QuizResponse) (direction : Option String) : QuizResponse :=
  if direction = some "more_recognizable" then
    { quiz with nicheTarget := max 1 (quiz.nicheTarget - 2) }
  else if direction = some "weirder" then
    { quiz with nicheTarget := min 7 (quiz.nicheTarget + 2) }
  else if direction = some "easier" then
    { quiz with effort := effortPrev quiz.effort }
  else if direction = some "hotter" then
    if quiz.goals.contains .sexy then quiz
    else { quiz with goals := quiz.goals.take 1 ++ [.sexy] }
  else if direction = some "stylisher" then
    if quiz.goals.contains .stylish then quiz
    else { quiz with goals := quiz.goals.take 1 ++ [.stylish] }
  else quiz

/-- The core of `POST /api/more-like-this` after input validation: find the
selected costume, adjust by direction, filter, exclude, score with the
similarity boost, re-sort, take 5, and error only on an empty result. -/
def moreLikeThisRoute (allCostumes : List Costume) (selectedCostumeId : String)
    (quiz : QuizResponse) (direction : Option String) (excludeIds : List String)
    (rho : ℕ → ℕ) : Except ApiError (List Recommendation) :=
  match allCostumes.find? (fun c => c.id == selectedCostumeId) with
  | none => .error .noMatch
  | some selectedCostume =>
    let adjustedQuiz := applyDirection quiz direction
    let filtered0 := applyHardFilters allCostumes adjustedQuiz
    let excludeSet := selectedCostumeId :: excludeIds
    let filtered := filtered0.filter (fun c => !excludeSet.contains c.id)
    let selectedTags :=
      selectedCostume.similarity.archetypeTags ++ selectedCostume.similarity.vibeTags
    let scored := (scoreAndRank filtered adjustedQuiz 50).map (fun sc =>
      let matchingTags :=
        ((sc.costume.similarity.archetypeTags ++ sc.costume.similarity.vibeTags).filter
          (fun tag => selectedTags.contains tag)).length
      (⟨sc.costume, sc.score + matchingTags * (1/2)⟩ : ScoredCostume))
    let top5 := (sortByScoreDesc scored).take 5
    if top5.isEmpty then .error .noMatch
    else .ok (top5.map (fun sc => generateFallbackRecommendation rho sc.costume adjustedQuiz))

/-! ## Concrete fixtures for witnesses and counterexamples -/

/-- All-clear safety block. -/
def safety0 : Safety := ⟨false, false, false, false, false⟩

/-- Permissive constraints block. -/
def constraints0 : CostumeConstraints := ⟨.one_item, .lt_30, .high, true, true⟩

/-- Minimal requirements block. -/
def requirements0 : Requirements := ⟨"anchor", ["a", "b", "c"], .nolevel, false, false⟩

/-- A minimal catalog entry parameterized by id, universe and niche score. -/
def mkCostume (id : String) (u : CUniverse) (niche : ℕ) : Costume :=
  ⟨id, id, id, u, none, .current, ⟨0, 0, 0, 0, 0⟩, niche, .flexible,
   constraints0, requirements0, safety0, false, ⟨["tagA"], ["tagB"]⟩, none, false⟩

/-- All-off boundary flags. -/
def boundaries0 : Boundaries := ⟨false, false, false, false, false, false, false⟩

/-- All-off practical flags. -/
def practical0 : Practical := ⟨false, false, false, false⟩

/-- A permissive baseline quiz. -/
def quiz0 : QuizResponse :=
  ⟨[.funny], 5, .suffer_for_bit, .dont_care, .dont_care, 4, [], .any,
   boundaries0, practical0, none, none, none⟩

/-! ## The universe clause of the filter (claim C4) -/

/-- The boundary-and-safety part of `passesConstraints`: the same
early-return chain without the final universe clause. -/
def passesBoundaries (quiz : QuizResponse) (costume : Costume) : Bool :=
  if quiz.boundaries.avoidCultureSpecific && costume.safety.cultureSpecific then false
  else if quiz.boundaries.avoidReligious && costume.safety.religiousAttire then false
  else if quiz.boundaries.avoidPolitical && costume.safety.politicalFigure then false
  else if quiz.boundaries.avoidControversial && costume.safety.controversial then false
  else if quiz.boundaries.noSkinToneChange && costume.safety.skinToneChangeImplied then false
  else if quiz.boundaries.avoidWigs && costume.requirements.wigRequired then false
  else if quiz.boundaries.avoidFacePaint &&
      (costume.requirements.facePaintRequired || costume.requiresBodyPaintOrFullFacePaint) then false
  else true

/-- Splitting the constraint predicate into its boundary part and its
universe clause. -/
theorem passesConstraints_split (quiz : QuizResponse) (costume : Costume) :
    passesConstraints quiz costume =
      (passesBoundaries quiz costume &&
        !(decide (0 < quiz.universes.length) && decide (quiz.universes.length < 5) &&
          !(decide (costume.univ ∈ quiz.universes)))) := by
  unfold passesConstraints passesBoundaries
  repeat' split
  all_goals try simp_all
  rename_i h
  by_cases h0 : 0 < quiz.universes.length
  · by_cases h5 : quiz.universes.length < 5
    · exact Or.inr (h h0 h5)
    · exact Or.inl (Or.inr (Nat.not_lt.mp h5))
  · exact Or.inl (Or.inl (List.length_eq_zero.mp (Nat.eq_zero_of_not_pos h0)))

/-- A quiz whose universes list is a five-fold duplicate of `movie`: as a set
it is a non-empty proper subset of the enum, but its raw length is 5. -/
def quizDup : QuizResponse :=
  { quiz0 with universes := [.movie, .movie, .movie, .movie, .movie] }

/-- A tv-universe costume. -/
def costumeTv : Costume := mkCostume "tv1" .tv 5

/-- C4 counterexample: `quizDup.universes` is non-empty and a proper subset of
the enum as a selection (`tv` is missing from it), and `costumeTv.univ` is not
in the selection, yet `filterByConstraints` keeps the costume: the code keys
the "surprise me" semantics on the raw list length (5 here), not on the
selection as a set. -/
theorem filterByConstraints_duplicate_universes_not_excluded :
    quizDup.universes ≠ [] ∧ CUniverse.tv ∉ quizDup.universes ∧
    costumeTv.univ = .tv ∧
    filterByConstraints [costumeTv] quizDup = [costumeTv] :=
  ⟨by decide, by decide, rfl, rfl⟩

/-- C4 (amended): membership in `filterByConstraints` decomposes into the
boundary checks plus a universe clause keyed on the raw length of
`quiz.universes`: for length 1-4 exactly the costumes whose universe is in
the list survive the universe clause; for length 0 or ≥ 5 the clause is
inactive. -/
theorem filterByConstraints_universe_clause (cs : List Costume)
    (quiz : QuizResponse) (c : Costume) :
    (1 ≤ quiz.universes.length → quiz.universes.length ≤ 4 →
      (c ∈ filterByConstraints cs quiz ↔
        c ∈ cs ∧ passesBoundaries quiz c = true ∧ c.univ ∈ quiz.universes)) ∧
    ((quiz.universes.length = 0 ∨ 5 ≤ quiz.universes.length) →
      (c ∈ filterByConstraints cs quiz ↔ c ∈ cs ∧ passesBoundaries quiz c = true)) := by
  constructor
  · intro h1 h4
    have h0 : 0 < quiz.universes.length := h1
    have h5 : quiz.universes.length < 5 := by omega
    simp [filterByConstraints, List.mem_filter, passesConstraints_split, h0, h5, and_assoc]
  · intro h
    have hcond : ¬(0 < quiz.universes.length ∧ quiz.universes.length < 5) := by omega
    simp [filterByConstraints, List.mem_filter, passesConstraints_split]
    intro _ _
    rcases h with h | h
    · exact Or.inl (Or.inl (List.length_eq_zero.mp h))
    · exact Or.inl (Or.inr h)

/-- C4 witness: the amended decomposition evaluated at a singleton selection
(`[movie]`, length 1) and a movie costume. -/
theorem filterByConstraints_universe_clause_witness :
    let quizM := { quiz0 with universes := [CUniverse.movie] }
    let cM := mkCostume "m1" .movie 5
    cM ∈ filterByConstraints [cM] quizM ↔
      cM ∈ [cM] ∧ passesBoundaries quizM cM = true ∧ cM.univ ∈ quizM.universes :=
  (filterByConstraints_universe_clause [mkCostume "m1" .movie 5]
    { quiz0 with universes := [CUniverse.movie] } (mkCostume "m1" .movie 5)).1
    (by decide) (by decide)

/-- The costume at the maximum of the shared 1-10 niche scale. -/
def costumeNiche10 : Costume := mkCostume "deep" .movie 10

/-- C5: at the maximum possible distance on the shared 1-10 niche scale
(`nicheScore = 10`, `nicheTarget = 1`), `scoreNiche` evaluates to `-1/2`:
negative, not the zero the claim (and the repository README, which specifies
`1 - abs(nicheScore - nicheTarget)/9`) requires, because the source divides
by 6. -/
theorem scoreNiche_negative_at_max_distance :
    scoreNiche costumeNiche10 1 = -(1/2) ∧ scoreNiche costumeNiche10 1 < 0 ∧
    costumeNiche10.nicheScore = 10 := by
  refine ⟨?_, ?_, rfl⟩ <;> norm_num [scoreNiche, costumeNiche10, mkCostume]

/-- A quiz with niche target 8 (valid on the 1-10 `NicheScoreSchema`). -/
def quizNiche8 : QuizResponse := { quiz0 with nicheTarget := 8 }

/-- C6: `applyDirection` with `"weirder"` clamps the niche target at 7, not at
the scale maximum 10 (the repository README specifies adjustment by 2 with bounds
(1-10)"): from a valid target of 8 the "weirder" direction *decreases* the
target to 7. -/
theorem applyDirection_weirder_clamps_at_7 :
    (applyDirection quizNiche8 (some "weirder")).nicheTarget = 7 ∧
    quizNiche8.nicheTarget = 8 ∧
    (applyDirection quizNiche8 (some "weirder")).nicheTarget < quizNiche8.nicheTarget := by
  decide

/-! ## Boundary invariance under relaxation (claim C2) -/

/-- A costume record violates none of the active boundary flags of a
boundary block: the seven conditions of the claim, with the face-paint flag
covering both authoring fields as the filter couples them. -/
def BoundarySafe (b : Boundaries) (c : Costume) : Prop :=
  (b.avoidCultureSpecific = true → c.safety.cultureSpecific = false) ∧
  (b.avoidReligious = true → c.safety.religiousAttire = false) ∧
  (b.avoidPolitical = true → c.safety.politicalFigure = false) ∧
  (b.avoidControversial = true → c.safety.controversial = false) ∧
  (b.noSkinToneChange = true → c.safety.skinToneChangeImplied = false) ∧
  (b.avoidWigs = true → c.requirements.wigRequired = false) ∧
  (b.avoidFacePaint = true →
    c.requirements.facePaintRequired = false ∧ c.requiresBodyPaintOrFullFacePaint = false)

instance (b : Boundaries) (c : Costume) : Decidable (BoundarySafe b c) := by
  unfold BoundarySafe
  infer_instance

/-- A single relaxation step never touches the boundary block. -/
theorem relaxStep_boundaries (quiz : QuizResponse) (s : String) :
    (relaxStep quiz s).boundaries = quiz.boundaries := by
  unfold relaxStep
  repeat' split
  all_goals rfl

/-- A relaxed quiz copy keeps the original boundary block, whatever the steps. -/
theorem relaxQuiz_boundaries (quiz : QuizResponse) (steps : List String) :
    (relaxQuiz quiz steps).boundaries = quiz.boundaries := by
  induction steps generalizing quiz with
  | nil => rfl
  | cons s rest ih =>
    unfold relaxQuiz at ih ⊢
    rw [List.foldl_cons, ih, relaxStep_boundaries]

/-- Passing the boundary chain of the filter means the record is boundary
safe. -/
theorem passesBoundaries_safe (quiz : QuizResponse) (c : Costume)
    (h : passesBoundaries quiz c = true) : BoundarySafe quiz.boundaries c := by
  unfold passesBoundaries at h
  unfold BoundarySafe
  repeat' split at h
  all_goals simp_all

/-- Surviving the combined hard filters implies boundary safety. -/
theorem applyHardFilters_safe (cs : List Costume) (quiz : QuizResponse) (c : Costume)
    (h : c ∈ applyHardFilters cs quiz) : BoundarySafe quiz.boundaries c := by
  unfold applyHardFilters filterByPractical at h
  have h1 : c ∈ filterByConstraints cs quiz := (List.mem_filter.mp h).1
  have h2 : passesConstraints quiz c = true :=
    (List.mem_filter.mp ((filterByConstraints.eq_1 cs quiz) ▸ h1)).2
  rw [passesConstraints_split] at h2
  exact passesBoundaries_safe quiz c (Bool.and_eq_true_iff.mp h2).1

/-- A costume in the output of the relaxation loop is boundary safe with
respect to the original quiz, whichever rung produced it. -/
theorem relaxLoop_safe (allC : List Costume) (quiz : QuizResponse) (n : ℕ) :
    ∀ (steps applied : List String) (filtered : List Costume) (c : Costume),
      (c ∈ filtered → BoundarySafe quiz.boundaries c) →
      c ∈ (relaxLoop allC quiz n steps applied filtered).costumes →
      BoundarySafe quiz.boundaries c := by
  intro steps
  induction steps with
  | nil =>
    intro applied filtered c hf hm
    exact hf hm
  | cons s rest ih =>
    intro applied filtered c hf hm
    unfold relaxLoop at hm
    set applied' := applied ++ [s] with happ
    have hsafe : c ∈ applyHardFilters allC (relaxQuiz quiz applied') →
        BoundarySafe quiz.boundaries c := by
      intro hmem
      have := applyHardFilters_safe allC (relaxQuiz quiz applied') c hmem
      rwa [relaxQuiz_boundaries] at this
    by_cases hlen : n ≤ (applyHardFilters allC (relaxQuiz quiz applied')).length
    · rw [if_pos hlen] at hm
      exact hsafe hm
    · rw [if_neg hlen] at hm
      exact ih applied' _ c hsafe hm

/-- C2: every costume in the candidate pool produced by the relaxation
ladder satisfies all active boundary flags of the *original* request — the
relaxation steps never loosen a boundary or safety predicate. -/
theorem relaxationLadder_boundary_invariant (allC : List Costume)
    (quiz : QuizResponse) (n : ℕ) (c : Costume)
    (h : c ∈ (applyRelaxationLadder allC quiz n).costumes) :
    BoundarySafe quiz.boundaries c := by
  unfold applyRelaxationLadder at h
  by_cases hlen : n ≤ (applyHardFilters allC quiz).length
  · rw [if_pos hlen] at h
    exact applyHardFilters_safe allC quiz c h
  · rw [if_neg hlen] at h
    exact relaxLoop_safe allC quiz n relaxationSteps [] (applyHardFilters allC quiz) c
      (applyHardFilters_safe allC quiz c) h

/-- C2 witness: a strict quiz (all boundary flags on) over a tiny catalog
containing one flagged and one safe costume: the pool, produced after the
full ladder runs, contains the safe costume, and the theorem yields its
boundary safety. -/
theorem relaxationLadder_boundary_invariant_witness :
    BoundarySafe { quiz0 with
        boundaries := ⟨true, true, true, true, true, true, true⟩ }.boundaries
      (mkCostume "safe" .movie 5) :=
  relaxationLadder_boundary_invariant
    [{ mkCostume "flagged" .movie 5 with safety := ⟨true, false, false, false, false⟩ },
     mkCostume "safe" .movie 5]
    { quiz0 with boundaries := ⟨true, true, true, true, true, true, true⟩ } 5
    (mkCostume "safe" .movie 5) (by decide)

/-! ## Relaxation monotonicity (claim C3) -/

/-- The combined per-costume predicate of `applyHardFilters`. -/
def passesAll (quiz : QuizResponse) (c : Costume) : Bool :=
  passesConstraints quiz c && passesPractical quiz c

/-- The two filter passes amount to one filter by the combined predicate. -/
theorem applyHardFilters_eq_filter (cs : List Costume) (quiz : QuizResponse) :
    applyHardFilters cs quiz = cs.filter (passesAll quiz) := by
  unfold applyHardFilters filterByPractical filterByConstraints passesAll
  rw [List.filter_filter]
  congr 1
  funext c
  exact Bool.and_comm _ _

/-- One relaxation step only ever weakens the combined hard-filter predicate:
era, budget and effort are not hard-filtered at all, and emptying the
universe list disables the universe clause. -/
theorem passesAll_relaxStep (quiz : QuizResponse) (s : String) (c : Costume)
    (h : passesAll quiz c = true) : passesAll (relaxStep quiz s) c = true := by
  unfold relaxStep
  repeat' split
  · exact h
  · have hb : passesBoundaries quiz c = true := by
      have h1 := (Bool.and_eq_true_iff.mp h).1
      rw [passesConstraints_split] at h1
      exact (Bool.and_eq_true_iff.mp h1).1
    have hp : passesPractical quiz c = true := (Bool.and_eq_true_iff.mp h).2
    unfold passesAll
    rw [passesConstraints_split]
    have hb2 : passesBoundaries { quiz with universes := [] } c = true := hb
    rw [hb2]
    simp only [List.length_nil, Bool.true_and]
    have hp2 : passesPractical { quiz with universes := [] } c = true := hp
    rw [hp2]
    simp
  · exact h
  · exact h
  · exact h

/-- Appending one step to the relaxation list composes with `relaxStep`. -/
theorem relaxQuiz_append (quiz : QuizResponse) (steps : List String) (s : String) :
    relaxQuiz quiz (steps ++ [s]) = relaxStep (relaxQuiz quiz steps) s := by
  unfold relaxQuiz
  rw [List.foldl_append]
  rfl

/-- C3: for a fixed catalog and request, the candidate pool size is
non-decreasing in the number of cumulatively applied ladder steps, each rung
re-filtering the original full catalog. -/
theorem relaxation_pool_monotone (allC : List Costume) (quiz : QuizResponse)
    (k k' : ℕ) (h : k ≤ k') :
    (applyHardFilters allC (relaxQuiz quiz (relaxationSteps.take k))).length ≤
      (applyHardFilters allC (relaxQuiz quiz (relaxationSteps.take k'))).length := by
  have mono : Monotone (fun k =>
      (applyHardFilters allC (relaxQuiz quiz (relaxationSteps.take k))).length) := by
    apply monotone_nat_of_le_succ
    intro m
    simp only [applyHardFilters_eq_filter]
    by_cases hm : m < relaxationSteps.length
    · have hget : relaxationSteps[m]? = some relaxationSteps[m] :=
        List.getElem?_eq_getElem hm
      have htake : relaxationSteps.take (m + 1) =
          relaxationSteps.take m ++ [relaxationSteps[m]] := by
        rw [List.take_succ, hget]
        rfl
      rw [htake, relaxQuiz_append]
      have := List.monotone_filter_right allC
        (fun c => passesAll_relaxStep (relaxQuiz quiz (relaxationSteps.take m))
          relaxationSteps[m] c)
      exact this.length_le
    · have hge : relaxationSteps.length ≤ m := Nat.not_lt.mp hm
      rw [List.take_of_length_le hge, List.take_of_length_le (by omega)]
  exact mono h

/-- C3 witness: a single-universe request over a single off-universe costume;
after two rungs (era, universe) the pool grows from 0 to 1, and the theorem
instance gives the non-decrease from rung 0 to rung 2. -/
theorem relaxation_pool_monotone_witness :
    (applyHardFilters [costumeTv]
      (relaxQuiz { quiz0 with universes := [.movie] } (relaxationSteps.take 0))).length ≤
    (applyHardFilters [costumeTv]
      (relaxQuiz { quiz0 with universes := [.movie] } (relaxationSteps.take 2))).length :=
  relaxation_pool_monotone [costumeTv] { quiz0 with universes := [.movie] } 0 2 (by omega)

/-! ## Stability of the ranking sort (claim C7) -/

/-- The stable descending sort leaves the subsequence of items of any given
score untouched: sorting only interleaves blocks of distinct scores. -/
theorem filter_sortByScoreDesc (l : List ScoredCostume) (s : ℚ) :
    (sortByScoreDesc l).filter (fun c => decide (c.score = s)) =
      l.filter (fun c => decide (c.score = s)) := by
  set p : ScoredCostume → Bool := fun c => decide (c.score = s) with hp
  have hPairwise : (l.filter p).Pairwise scoreGE := by
    apply List.pairwise_of_forall_mem_list
    intro a ha b hb
    have ha' : a.score = s := by simpa [hp] using (List.mem_filter.mp ha).2
    have hb' : b.score = s := by simpa [hp] using (List.mem_filter.mp hb).2
    unfold scoreGE
    rw [ha', hb']
  have h1 : l.filter p <+ List.insertionSort scoreGE l :=
    List.sublist_insertionSort hPairwise (List.filter_sublist l)
  have h2 : (l.filter p).filter p <+ (List.insertionSort scoreGE l).filter p :=
    h1.filter p
  rw [List.filter_filter] at h2
  have h3 : l.filter p <+ (List.insertionSort scoreGE l).filter p := by
    simpa [Bool.and_self] using h2
  have hperm : (List.insertionSort scoreGE l).filter p ~ l.filter p :=
    (List.perm_insertionSort scoreGE l).filter p
  have := h3.eq_of_length hperm.length_eq.symm
  unfold sortByScoreDesc
  exact this.symm

/-- C7: the ranking is a stable descending sort — for every score value, the
items of that score appear in `scoreAndRank`'s output as a subsequence (in
particular, in the same relative order) of the score-annotated input list,
and before the top-N truncation the two subsequences are equal. -/
theorem scoreAndRank_stable (costumes : List Costume) (quiz : QuizResponse)
    (topN : ℕ) (s : ℚ) :
    ((scoreAndRank costumes quiz topN).filter (fun c => decide (c.score = s)) <+
      (costumes.map (fun c => (⟨c, scoreCostume c quiz⟩ : ScoredCostume))).filter
        (fun c => decide (c.score = s))) ∧
    (sortByScoreDesc (costumes.map
        (fun c => (⟨c, scoreCostume c quiz⟩ : ScoredCostume)))).filter
        (fun c => decide (c.score = s)) =
      (costumes.map (fun c => (⟨c, scoreCostume c quiz⟩ : ScoredCostume))).filter
        (fun c => decide (c.score = s)) := by
  constructor
  · unfold scoreAndRank
    have h1 := (List.take_sublist topN
      (sortByScoreDesc (costumes.map (fun c => (⟨c, scoreCostume c quiz⟩ : ScoredCostume))))).filter
      (fun c => decide (c.score = s))
    rwa [filter_sortByScoreDesc] at h1
  · exact filter_sortByScoreDesc _ s

/-! ## Permutation lemmas for the diversity passes (claim C10) -/

/-- Replacing the element at `k` by `a` while holding the displaced element
`b` in front is a permutation of holding `a` in front instead. -/
theorem cons_set_perm {α : Type} :
    ∀ (xs : List α) (k : ℕ) (a b : α), xs.get? k = some b →
      b :: xs.set k a ~ a :: xs := by
  intro xs
  induction xs with
  | nil => intro k a b h; cases h
  | cons x t ih =>
    intro k a b h
    cases k with
    | zero =>
      cases h
      exact List.Perm.swap _ _ _
    | succ m =>
      have hm : t.get? m = some b := h
      calc b :: (x :: t).set (m + 1) a = b :: x :: t.set m a := rfl
        _ ~ x :: b :: t.set m a := List.Perm.swap _ _ _
        _ ~ x :: a :: t := List.Perm.cons x (ih m a b hm)
        _ ~ a :: x :: t := List.Perm.swap _ _ _

/-- Overwriting position `i` with the value at `j` and position `j` with the
value at `i` permutes the list. -/
theorem set_set_perm {α : Type} :
    ∀ (xs : List α) (i j : ℕ) (a b : α), xs.get? i = some a → xs.get? j = some b →
      (xs.set i b).set j a ~ xs := by
  intro xs
  induction xs with
  | nil => intro i j a b hi _; cases hi
  | cons x t ih =>
    intro i j a b hi hj
    cases i with
    | zero =>
      cases hi
      cases j with
      | zero =>
        cases hj
        exact List.Perm.refl _
      | succ m =>
        have hm : t.get? m = some b := hj
        exact cons_set_perm t m x b hm
    | succ k =>
      have hk : t.get? k = some a := hi
      cases j with
      | zero =>
        cases hj
        exact cons_set_perm t k x a hk
      | succ m =>
        have hm : t.get? m = some b := hj
        exact List.Perm.cons x (ih k m a b hk hm)

/-- The two-position swap of `shuffleArray` is a permutation. -/
theorem listSwap_perm {α : Type} (xs : List α) (i j : ℕ) : listSwap xs i j ~ xs := by
  unfold listSwap
  cases hi : xs.get? i with
  | none => cases xs.get? j <;> exact List.Perm.refl _
  | some a =>
    cases hj : xs.get? j with
    | none => exact List.Perm.refl _
    | some b => exact set_set_perm xs i j a b hi hj

/-- Each Fisher-Yates pass is a permutation, whatever the draws. -/
theorem fisherYatesAux_perm {α : Type} (g : ℕ → ℕ) :
    ∀ (n : ℕ) (xs : List α), fisherYatesAux g xs n ~ xs := by
  intro n
  induction n with
  | zero => intro xs; exact List.Perm.refl _
  | succ m ih =>
    intro xs
    exact (ih _).trans (listSwap_perm xs (m + 1) (g (m + 1) % (m + 2)))

/-- `shuffleArray` is a permutation. -/
theorem shuffleArray_perm {α : Type} (g : ℕ → ℕ) (xs : List α) :
    shuffleArray g xs ~ xs :=
  fisherYatesAux_perm g (xs.length - 1) xs

/-- The bucket loop of `addRandomShuffle` is a permutation. -/
theorem shuffleBuckets_perm {α : Type} (g : ℕ → ℕ → ℕ) (b : ℕ) :
    ∀ (fuel i : ℕ) (xs : List α), shuffleBuckets g b fuel i xs ~ xs := by
  intro fuel
  induction fuel with
  | zero => intro i xs; exact List.Perm.refl _
  | succ m ih =>
    intro i xs
    unfold shuffleBuckets
    by_cases hxs : xs.isEmpty
    · rw [if_pos hxs]
    · rw [if_neg hxs]
      calc shuffleArray (g i) (xs.take b) ++ shuffleBuckets g b m (i + b) (xs.drop b)
          ~ xs.take b ++ xs.drop b :=
            List.Perm.append (shuffleArray_perm (g i) (xs.take b)) (ih (i + b) (xs.drop b))
        _ = xs := List.take_append_drop b xs

/-- `addRandomShuffle` is a permutation of its input for every outcome of the
random draws. -/
theorem addRandomShuffle_perm (g : ℕ → ℕ → ℕ) (candidates : List ScoredCostume)
    (b : ℕ) : addRandomShuffle g candidates b ~ candidates := by
  unfold addRandomShuffle
  by_cases h : candidates.length ≤ 3
  · rw [if_pos h]
  · rw [if_neg h]
    exact shuffleBuckets_perm g b candidates.length 0 candidates

/-- Inserting at a valid position is, up to permutation, a cons. -/
theorem insertIdx_perm {α : Type} :
    ∀ (n : ℕ) (l : List α) (x : α), n ≤ l.length → l.insertIdx n x ~ x :: l := by
  intro n
  induction n with
  | zero => intro l x _; rw [List.insertIdx_zero]
  | succ m ih =>
    intro l x h
    cases l with
    | nil => cases h
    | cons a t =>
      rw [List.insertIdx_succ_cons]
      calc a :: t.insertIdx m x ~ a :: x :: t :=
            List.Perm.cons a (ih t x (Nat.le_of_succ_le_succ h))
        _ ~ x :: a :: t := List.Perm.swap _ _ _

/-- Removing the element at a position and re-inserting it elsewhere (the
`splice` pair of the universe / funny-extreme passes) permutes the list. -/
theorem eraseIdx_insertIdx_move_perm {α : Type} (xs : List α) (i n : ℕ) (x : α)
    (hx : xs.get? i = some x) (hn : n ≤ (xs.eraseIdx i).length) :
    (xs.eraseIdx i).insertIdx n x ~ xs := by
  have hi : i < xs.length := (List.get?_eq_some.mp hx).1
  have hxs : xs.take i ++ x :: xs.drop (i + 1) = xs := by
    have hdrop : xs.drop i = x :: xs.drop (i + 1) := by
      rw [List.drop_eq_getElem_cons hi]
      have : xs[i] = x := by
        have := List.get?_eq_get hi
        rw [hx] at this
        exact (Option.some.inj this).symm
      rw [this]
    rw [← hdrop, List.take_append_drop]
  calc (xs.eraseIdx i).insertIdx n x
      ~ x :: xs.eraseIdx i := insertIdx_perm n _ x hn
    _ = x :: (xs.take i ++ xs.drop (i + 1)) := by rw [List.eraseIdx_eq_take_drop_succ]
    _ ~ xs.take i ++ x :: xs.drop (i + 1) := (List.perm_middle).symm
    _ = xs := hxs

/-- The promotion loop of `ensureDiversity` permutes its working list with
some subsequence of the remaining candidates. -/
theorem promoteLoop_perm (m : ℕ) :
    ∀ (rest : List ScoredCostume) (tags : List String) (result : List ScoredCostume),
      ∃ chosen, chosen <+ rest ∧ promoteLoop m rest tags result ~ result ++ chosen := by
  intro rest
  induction rest with
  | nil =>
    intro tags result
    exact ⟨[], List.Sublist.refl _, by simp [promoteLoop]⟩
  | cons c rest' ih =>
    intro tags result
    unfold promoteLoop
    by_cases hnew : (c.costume.similarity.archetypeTags.filter
        (fun t => !tags.contains t)).isEmpty
    · rw [if_pos hnew]
      obtain ⟨chosen, hsub, hperm⟩ := ih tags result
      exact ⟨chosen, hsub.cons c, hperm⟩
    · rw [if_neg hnew]
      have hins : result.insertIdx (min 9 result.length) c ~ c :: result :=
        insertIdx_perm _ result c (Nat.min_le_right _ _)
      by_cases hstop : m ≤ (addTags tags (c.costume.similarity.archetypeTags.filter
          (fun t => !tags.contains t))).length
      · rw [if_pos hstop]
        refine ⟨[c], (List.nil_sublist rest').cons₂ c, ?_⟩
        calc result.insertIdx (min 9 result.length) c ~ c :: result := hins
          _ ~ result ++ [c] := (List.perm_append_singleton c result).symm
      · rw [if_neg hstop]
        obtain ⟨chosen, hsub, hperm⟩ := ih
          (addTags tags (c.costume.similarity.archetypeTags.filter
            (fun t => !tags.contains t)))
          (result.insertIdx (min 9 result.length) c)
        refine ⟨c :: chosen, hsub.cons₂ c, ?_⟩
        calc promoteLoop m rest'
              (addTags tags (c.costume.similarity.archetypeTags.filter
                (fun t => !tags.contains t)))
              (result.insertIdx (min 9 result.length) c)
            ~ result.insertIdx (min 9 result.length) c ++ chosen := hperm
          _ ~ (c :: result) ++ chosen := hins.append_right chosen
          _ ~ result ++ c :: chosen := List.perm_middle.symm


/-- Filtering a duplicate-free list by membership in one of its subsequences
recovers exactly that subsequence. -/
theorem filter_mem_of_sublist_nodup {α : Type} [DecidableEq α] {c l : List α}
    (hs : c <+ l) : l.Nodup → l.filter (fun a => decide (a ∈ c)) = c := by
  induction hs with
  | slnil => intro _; rfl
  | @cons c' l' a hs ih =>
    intro hnd
    obtain ⟨hna, hnd2⟩ := List.nodup_cons.mp hnd
    have hac : a ∉ c' := fun hac => hna (hs.subset hac)
    rw [List.filter_cons]
    simp only [hac, decide_False, Bool.false_eq_true, if_false]
    exact ih hnd2
  | @cons₂ c' l' a hs ih =>
    intro hnd
    obtain ⟨hna, hnd2⟩ := List.nodup_cons.mp hnd
    rw [List.filter_cons]
    simp only [List.mem_cons, true_or, decide_True, if_true]
    congr 1
    rw [List.filter_congr (fun x hx => ?_), ih hnd2]
    have hxa : x ≠ a := fun h => hna (h ▸ hx)
    simp [hxa]

/-- `ensureUniverseDiversity` is a permutation of its input. -/
theorem ensureUniverseDiversity_perm (candidates : List ScoredCostume)
    (us : List CUniverse) : ensureUniverseDiversity candidates us ~ candidates := by
  unfold ensureUniverseDiversity
  repeat' first
    | split
    | dsimp only
  any_goals exact List.Perm.refl _
  all_goals
    rename_i heq
    have hi := (List.get?_eq_some.mp heq).1
    apply eraseIdx_insertIdx_move_perm _ _ 2 _ heq
    have := List.length_eraseIdx_add_one hi
    omega

/-- `ensureFunnyExtreme` is a permutation of its input for every outcome of
the random pick. -/
theorem ensureFunnyExtreme_perm (g : ℕ) (candidates : List ScoredCostume) :
    ensureFunnyExtreme g candidates ~ candidates := by
  unfold ensureFunnyExtreme
  repeat' first
    | split
    | dsimp only
  any_goals exact List.Perm.refl _
  all_goals
    rename_i heq
    have hi := (List.get?_eq_some.mp heq).1
    apply eraseIdx_insertIdx_move_perm _ _ 2 _ heq
    have := List.length_eraseIdx_add_one hi
    omega

/-- `ensureDiversity` is a permutation of its input whenever the costume ids
are pairwise distinct. -/
theorem ensureDiversity_perm (candidates : List ScoredCostume) (m : ℕ)
    (hids : (candidates.map (fun x => x.costume.id)).Nodup) :
    ensureDiversity candidates m ~ candidates := by
  unfold ensureDiversity
  by_cases h3 : candidates.length ≤ 3
  · rw [if_pos h3]
  · rw [if_neg h3]
    dsimp only
    by_cases hok : m ≤ ((candidates.take 10).foldl
        (fun acc c => addTags acc c.costume.similarity.archetypeTags) []).length
    · rw [if_pos hok]
    · rw [if_neg hok]
      obtain ⟨chosen, hsub, hperm⟩ := promoteLoop_perm m (candidates.drop 10)
        ((candidates.take 10).foldl
          (fun acc c => addTags acc c.costume.similarity.archetypeTags) [])
        (candidates.take 10)
      set R := promoteLoop m (candidates.drop 10)
        ((candidates.take 10).foldl
          (fun acc c => addTags acc c.costume.similarity.archetypeTags) [])
        (candidates.take 10) with hR
      have hsplitIds : (candidates.take 10).map (fun x => x.costume.id) ++
          (candidates.drop 10).map (fun x => x.costume.id) =
          candidates.map (fun x => x.costume.id) := by
        rw [List.map_take, List.map_drop, List.take_append_drop]
      have hndApp : ((candidates.take 10).map (fun x => x.costume.id) ++
          (candidates.drop 10).map (fun x => x.costume.id)).Nodup := by
        rw [hsplitIds]; exact hids
      have hndDropIds := (List.nodup_append.mp hndApp).2.1
      have hdisj := (List.nodup_append.mp hndApp).2.2
      have hndDrop : (candidates.drop 10).Nodup := hndDropIds.of_map _
      have hfilt : (candidates.drop 10).filter
          (fun c => !(R.map (fun x => x.costume.id)).contains c.costume.id) =
          (candidates.drop 10).filter (fun c => !decide (c ∈ chosen)) := by
        apply List.filter_congr
        intro c hc
        have hmemiff : c.costume.id ∈ R.map (fun x => x.costume.id) ↔ c ∈ chosen := by
          constructor
          · intro hmem
            have hmem2 := (hperm.map (fun x => x.costume.id)).mem_iff.mp hmem
            rw [List.map_append, List.mem_append] at hmem2
            rcases hmem2 with hmem10 | hmemCh
            · exact absurd
                (List.mem_map_of_mem (fun x : ScoredCostume => x.costume.id) hc)
                (hdisj hmem10)
            · obtain ⟨c', hc', hcid⟩ := List.mem_map.mp hmemCh
              have hc'drop : c' ∈ candidates.drop 10 := hsub.subset hc'
              have hcc := List.inj_on_of_nodup_map hndDropIds hc'drop hc hcid
              exact hcc ▸ hc'
          · intro hmem
            apply (hperm.map (fun x => x.costume.id)).mem_iff.mpr
            rw [List.map_append, List.mem_append]
            exact Or.inr (List.mem_map_of_mem _ hmem)
        have h1 : (R.map (fun x => x.costume.id)).contains c.costume.id =
            decide (c ∈ chosen) := by
          calc (R.map (fun x => x.costume.id)).contains c.costume.id
              = decide (c.costume.id ∈ R.map (fun x => x.costume.id)) :=
                List.elem_eq_mem _ _
            _ = decide (c ∈ chosen) := decide_eq_decide.mpr hmemiff
        rw [h1]
      rw [hfilt]
      have hchfilt : (candidates.drop 10).filter (fun c => decide (c ∈ chosen)) = chosen :=
        filter_mem_of_sublist_nodup hsub hndDrop
      have happ : chosen ++ (candidates.drop 10).filter (fun c => !decide (c ∈ chosen)) ~
          candidates.drop 10 := by
        have hfp := List.filter_append_perm (fun c => decide (c ∈ chosen)) (candidates.drop 10)
        rwa [hchfilt] at hfp
      calc R ++ (candidates.drop 10).filter (fun c => !decide (c ∈ chosen))
          ~ (candidates.take 10 ++ chosen) ++
              (candidates.drop 10).filter (fun c => !decide (c ∈ chosen)) :=
            hperm.append_right _
        _ = candidates.take 10 ++ (chosen ++
              (candidates.drop 10).filter (fun c => !decide (c ∈ chosen))) := by
            rw [List.append_assoc]
        _ ~ candidates.take 10 ++ candidates.drop 10 := List.Perm.append_left _ happ
        _ = candidates := List.take_append_drop 10 candidates

/-- C10: each diversification pass — the bucketed shuffle, the archetype
promotion, the universe swap and the funny-extreme promotion — returns a
permutation of its input for every outcome of the internal random choices,
given pairwise distinct costume ids; the scored candidate multiset is
preserved through the whole diversification stage. -/
theorem diversify_passes_permutation (g : ℕ → ℕ → ℕ) (gf : ℕ) (b m : ℕ)
    (candidates : List ScoredCostume) (us : List CUniverse)
    (hids : (candidates.map (fun x => x.costume.id)).Nodup) :
    addRandomShuffle g candidates b ~ candidates ∧
    ensureDiversity candidates m ~ candidates ∧
    ensureUniverseDiversity candidates us ~ candidates ∧
    ensureFunnyExtreme gf candidates ~ candidates :=
  ⟨addRandomShuffle_perm g candidates b, ensureDiversity_perm candidates m hids,
   ensureUniverseDiversity_perm candidates us, ensureFunnyExtreme_perm gf candidates⟩

/-- A concrete four-costume scored list with distinct ids. -/
def scWitnessList : List ScoredCostume :=
  [⟨mkCostume "a" .movie 1, 1⟩, ⟨mkCostume "b" .tv 2, 2⟩,
   ⟨mkCostume "c" .music 3, 3⟩, ⟨mkCostume "d" .sports 4, 4⟩]

/-- C10 witness: the four passes instantiated on a concrete list and concrete
random draws. -/
theorem diversify_passes_permutation_witness :
    addRandomShuffle (fun _ k => k) scWitnessList 5 ~ scWitnessList ∧
    ensureDiversity scWitnessList 2 ~ scWitnessList ∧
    ensureUniverseDiversity scWitnessList [] ~ scWitnessList ∧
    ensureFunnyExtreme 1 scWitnessList ~ scWitnessList :=
  diversify_passes_permutation (fun _ k => k) 1 5 2 scWitnessList [] (by decide)

/-! ## FindSimilar result counts (claim C8) -/

/-- The ranked shortlist of `scoreAndRank` has `min topN n` entries for an
`n`-costume input. -/
theorem length_scoreAndRank (cs : List Costume) (quiz : QuizResponse) (topN : ℕ) :
    (scoreAndRank cs quiz topN).length = min topN cs.length := by
  unfold scoreAndRank sortByScoreDesc
  rw [List.length_take, List.length_insertionSort, List.length_map]

/-- The stable sort preserves length. -/
theorem length_sortByScoreDesc (l : List ScoredCostume) :
    (sortByScoreDesc l).length = l.length :=
  List.length_insertionSort _ l

/-- C8: whenever at least one costume survives the hard filters and the
exclusion set, `FindSimilar` returns between 1 and 5 recommendations and no
error; the 404 is produced exactly in the zero-survivor case. -/
theorem moreLikeThis_result_count (allCostumes : List Costume) (selId : String)
    (quiz : QuizResponse) (direction : Option String) (excludeIds : List String)
    (rho : ℕ → ℕ) (hsel : (allCostumes.find? (fun c => c.id == selId)).isSome) :
    ((applyHardFilters allCostumes (applyDirection quiz direction)).filter
        (fun c => !((selId :: excludeIds).contains c.id)) ≠ [] →
      ∃ recs, moreLikeThisRoute allCostumes selId quiz direction excludeIds rho =
          .ok recs ∧ 1 ≤ recs.length ∧ recs.length ≤ 5) ∧
    ((applyHardFilters allCostumes (applyDirection quiz direction)).filter
        (fun c => !((selId :: excludeIds).contains c.id)) = [] →
      moreLikeThisRoute allCostumes selId quiz direction excludeIds rho =
        .error .noMatch) := by
  obtain ⟨sel, hfind⟩ := Option.isSome_iff_exists.mp hsel
  unfold moreLikeThisRoute
  rw [hfind]
  dsimp only
  constructor
  · intro hne
    split
    · rename_i hemp
      exfalso
      rw [List.isEmpty_iff, ← List.length_eq_zero, List.length_take,
        length_sortByScoreDesc, List.length_map, length_scoreAndRank] at hemp
      have hpos : 0 < ((applyHardFilters allCostumes (applyDirection quiz direction)).filter
          (fun c => !((selId :: excludeIds).contains c.id))).length :=
        List.length_pos.mpr hne
      omega
    · rename_i hemp
      refine ⟨_, rfl, ?_, ?_⟩
      · rw [List.isEmpty_iff, ← List.length_eq_zero] at hemp
        rw [List.length_map]
        omega
      · rw [List.length_map, List.length_take, length_sortByScoreDesc]
        omega
  · intro hz
    split
    · rfl
    · rename_i hemp
      exfalso
      rw [List.isEmpty_iff, ← List.length_eq_zero, List.length_take,
        length_sortByScoreDesc, List.length_map, length_scoreAndRank, hz] at hemp
      simp at hemp

/-- C8 witness: a two-costume catalog where only the selected costume is
excluded leaves one survivor, and the route succeeds with 1-5 results. -/
theorem moreLikeThis_result_count_witness :
    ∃ recs, moreLikeThisRoute [mkCostume "sel" .movie 5, mkCostume "other" .movie 5]
        "sel" quiz0 none [] (fun _ => 0) = .ok recs ∧
      1 ≤ recs.length ∧ recs.length ≤ 5 :=
  (moreLikeThis_result_count [mkCostume "sel" .movie 5, mkCostume "other" .movie 5]
    "sel" quiz0 none [] (fun _ => 0) (by decide)).1 (by decide)

/-! ## The recommend route: cardinality and mode (claims C1 and C9) -/

/-- The hard filters select a subsequence of the catalog. -/
theorem applyHardFilters_sublist (cs : List Costume) (quiz : QuizResponse) :
    applyHardFilters cs quiz <+ cs := by
  rw [applyHardFilters_eq_filter]
  exact List.filter_sublist cs

/-- The relaxation loop always returns a subsequence of the catalog, provided
its working pool is one. -/
theorem relaxLoop_sublist (allC : List Costume) (quiz : QuizResponse) (n : ℕ) :
    ∀ (steps applied : List String) (filtered : List Costume),
      filtered <+ allC → (relaxLoop allC quiz n steps applied filtered).costumes <+ allC := by
  intro steps
  induction steps with
  | nil => intro applied filtered h; exact h
  | cons s rest ih =>
    intro applied filtered h
    unfold relaxLoop
    by_cases hlen : n ≤ (applyHardFilters allC (relaxQuiz quiz (applied ++ [s]))).length
    · rw [if_pos hlen]
      exact applyHardFilters_sublist _ _
    · rw [if_neg hlen]
      exact ih _ _ (applyHardFilters_sublist _ _)

/-- The relaxation ladder returns a subsequence of the catalog. -/
theorem relaxationLadder_sublist (allC : List Costume) (quiz : QuizResponse) (n : ℕ) :
    (applyRelaxationLadder allC quiz n).costumes <+ allC := by
  unfold applyRelaxationLadder
  by_cases hlen : n ≤ (applyHardFilters allC quiz).length
  · rw [if_pos hlen]
    exact applyHardFilters_sublist _ _
  · rw [if_neg hlen]
    exact relaxLoop_sublist allC quiz n relaxationSteps [] _ (applyHardFilters_sublist _ _)

/-- Scoring and ranking keeps the costume ids pairwise distinct. -/
theorem scoreAndRank_ids_nodup (cs : List Costume) (quiz : QuizResponse) (n : ℕ)
    (h : (cs.map (fun c => c.id)).Nodup) :
    ((scoreAndRank cs quiz n).map (fun sc => sc.costume.id)).Nodup := by
  unfold scoreAndRank sortByScoreDesc
  apply List.Nodup.sublist ((List.take_sublist _ _).map _)
  have hperm := (List.perm_insertionSort scoreGE
    (cs.map (fun c => (⟨c, scoreCostume c quiz⟩ : ScoredCostume)))).map
    (fun sc => sc.costume.id)
  rw [hperm.nodup_iff, List.map_map]
  exact h



/-- The diversify chain of the recommend route (shuffle, three diversity
passes, trim to 20) applied to an arbitrary scored list with distinct ids:
the result has `min 20` of the input length and keeps ids distinct. -/
theorem diversifyChain_facts (g : ℕ → ℕ → ℕ) (gf : ℕ) (us : List CUniverse)
    (c0 : List ScoredCostume)
    (hnd0 : (c0.map (fun sc => sc.costume.id)).Nodup) :
    ((ensureFunnyExtreme gf (ensureUniverseDiversity
        (ensureDiversity (addRandomShuffle g c0 5) 2) us)).take 20).length =
      min 20 c0.length ∧
    (((ensureFunnyExtreme gf (ensureUniverseDiversity
        (ensureDiversity (addRandomShuffle g c0 5) 2) us)).take 20).map
      (fun sc => sc.costume.id)).Nodup := by
  have hp1 : addRandomShuffle g c0 5 ~ c0 := addRandomShuffle_perm g c0 5
  have hnd1 : ((addRandomShuffle g c0 5).map (fun sc => sc.costume.id)).Nodup :=
    ((hp1.map (fun sc => sc.costume.id)).nodup_iff).mpr hnd0
  have hp2 : ensureDiversity (addRandomShuffle g c0 5) 2 ~ addRandomShuffle g c0 5 :=
    ensureDiversity_perm _ 2 hnd1
  have hnd2 := ((hp2.map (fun sc => sc.costume.id)).nodup_iff).mpr hnd1
  have hp3 : ensureUniverseDiversity (ensureDiversity (addRandomShuffle g c0 5) 2) us ~
      ensureDiversity (addRandomShuffle g c0 5) 2 := ensureUniverseDiversity_perm _ us
  have hnd3 := ((hp3.map (fun sc => sc.costume.id)).nodup_iff).mpr hnd2
  have hp4 : ensureFunnyExtreme gf (ensureUniverseDiversity
      (ensureDiversity (addRandomShuffle g c0 5) 2) us) ~
      ensureUniverseDiversity (ensureDiversity (addRandomShuffle g c0 5) 2) us :=
    ensureFunnyExtreme_perm gf _
  have hnd4 := ((hp4.map (fun sc => sc.costume.id)).nodup_iff).mpr hnd3
  have hlen4 := (hp4.length_eq).trans ((hp3.length_eq).trans
    ((hp2.length_eq).trans hp1.length_eq))
  constructor
  · rw [List.length_take, hlen4]
  · exact hnd4.sublist ((List.take_sublist _ _).map _)

/-- The recommend shortlist of a ≥3-costume relaxed pool over a
duplicate-free catalog has at least 3 entries and pairwise distinct ids. -/
theorem recommendShortlist_facts (allCostumes : List Costume) (quiz : QuizResponse)
    (g : ℕ → ℕ → ℕ) (gf : ℕ)
    (hids : (allCostumes.map (fun c => c.id)).Nodup)
    (hpool : 3 ≤ (applyRelaxationLadder allCostumes quiz 5).costumes.length) :
    3 ≤ (recommendShortlist allCostumes quiz g gf).length ∧
    ((recommendShortlist allCostumes quiz g gf).map (fun sc => sc.costume.id)).Nodup := by
  have hpoolIds : ((applyRelaxationLadder allCostumes quiz 5).costumes.map
      (fun c => c.id)).Nodup :=
    hids.sublist ((relaxationLadder_sublist allCostumes quiz 5).map _)
  have hnd0 := scoreAndRank_ids_nodup (applyRelaxationLadder allCostumes quiz 5).costumes
    quiz 30 hpoolIds
  have hmain := diversifyChain_facts g gf quiz.universes
    (scoreAndRank (applyRelaxationLadder allCostumes quiz 5).costumes quiz 30) hnd0
  have hlen0 := length_scoreAndRank (applyRelaxationLadder allCostumes quiz 5).costumes
    quiz 30
  refine ⟨?_, hmain.2⟩
  rw [recommendShortlist.eq_1]
  rw [hmain.1, hlen0]
  omega

/-- A successful generator stage means the raw output passed validation. -/
theorem generateRecommendations_some (banned : List String)
    (shortlist : List ScoredCostume) (llmRaw : Option (List LlmSelection))
    (recs : List LlmSelection)
    (h : generateRecommendations banned shortlist llmRaw = some recs) :
    validLlmOutput banned shortlist recs = true := by
  unfold generateRecommendations at h
  cases llmRaw with
  | none => cases h
  | some raws =>
    dsimp only at h
    by_cases hv : validLlmOutput banned shortlist raws = true
    · rw [if_pos hv] at h
      cases h
      exact hv
    · rw [if_neg hv] at h
      cases h

/-- The validation facts used downstream: exactly 3 selections, pairwise
distinct ids, each id present in the shortlist. -/
theorem validLlmOutput_facts (banned : List String) (shortlist : List ScoredCostume)
    (recs : List LlmSelection) (h : validLlmOutput banned shortlist recs = true) :
    recs.length = 3 ∧ (recs.map (fun r => r.costumeId)).Nodup ∧
    ∀ r ∈ recs, ∃ c, c ∈ shortlist ∧ (c.costume.id == r.costumeId) = true := by
  unfold validLlmOutput at h
  simp only [Bool.and_eq_true, decide_eq_true_eq, List.all_eq_true,
    List.any_eq_true] at h
  exact ⟨h.1.1.1, h.1.1.2, fun r hr => h.1.2 r hr⟩

/-- For validated output, enrichment keeps the count and the ids. -/
theorem enrich_facts (recs : List LlmSelection) (shortlist : List ScoredCostume)
    (h : ∀ r ∈ recs, ∃ c, c ∈ shortlist ∧ (c.costume.id == r.costumeId) = true) :
    (enrichRecommendations recs shortlist).length = recs.length ∧
    (enrichRecommendations recs shortlist).map (fun x => x.costumeId) =
      recs.map (fun r => r.costumeId) := by
  induction recs with
  | nil => exact ⟨rfl, rfl⟩
  | cons r rest ih =>
    have hr := h r (List.mem_cons_self r rest)
    have hfind : ∃ c, shortlist.find? (fun c => c.costume.id == r.costumeId) = some c := by
      apply Option.isSome_iff_exists.mp
      rw [List.find?_isSome]
      exact hr
    obtain ⟨c, hc⟩ := hfind
    have ihrest := ih (fun r hr => h r (List.mem_cons_of_mem _ hr))
    constructor
    · unfold enrichRecommendations
      rw [List.filterMap_cons, hc]
      simp only [Option.map_some']
      unfold enrichRecommendations at ihrest
      simp [ihrest.1]
    · unfold enrichRecommendations
      rw [List.filterMap_cons, hc]
      simp only [Option.map_some']
      unfold enrichRecommendations at ihrest
      simp [ihrest.2]

/-- A shortlist of three or more always yields a fallback triple built from
its first three entries (the source throw cannot fire). -/
theorem generateFallbackRecommendations_of_three (rho : ℕ → ℕ)
    (cand : List ScoredCostume) (quiz : QuizResponse) (h : 3 ≤ cand.length) :
    ∃ a b c rest, cand = a :: b :: c :: rest ∧
      generateFallbackRecommendations rho cand quiz =
        some (generateFallbackRecommendation rho a.costume quiz,
              generateFallbackRecommendation (fun k => rho (4 + k)) b.costume quiz,
              generateFallbackRecommendation (fun k => rho (8 + k)) c.costume quiz) := by
  match cand, h with
  | a :: b :: c :: rest, _ => exact ⟨a, b, c, rest, rfl, rfl⟩

set_option maxHeartbeats 1600000 in
/-- C1 (amended): for every valid request whose post-relaxation pool has at
least 3 costumes (over a duplicate-free catalog), the initial Recommend
operation succeeds — for every generator outcome and every random draw — with
exactly 3 recommendations carrying 3 distinct costume ids. -/
theorem recommend_three_distinct (allCostumes : List Costume) (quiz : QuizResponse)
    (g : ℕ → ℕ → ℕ) (gf : ℕ) (rho : ℕ → ℕ) (banned : List String)
    (llmRaw : Option (List LlmSelection))
    (hids : (allCostumes.map (fun c => c.id)).Nodup)
    (hpool : 3 ≤ (applyRelaxationLadder allCostumes quiz 5).costumes.length) :
    ∃ resp, recommendRoute allCostumes quiz g gf rho banned llmRaw = .ok resp ∧
      resp.recommendations.length = 3 ∧
      (resp.recommendations.map (fun r => r.costumeId)).Nodup := by
  obtain ⟨hslen, hsids⟩ := recommendShortlist_facts allCostumes quiz g gf hids hpool
  have hne : (applyRelaxationLadder allCostumes quiz 5).costumes.isEmpty = false := by
    rcases hl : (applyRelaxationLadder allCostumes quiz 5).costumes with _ | ⟨a, t⟩
    · rw [hl] at hpool
      simp at hpool
    · rfl
  unfold recommendRoute
  simp only [hne, Bool.false_eq_true, if_false]
  rcases hgen : generateRecommendations banned (recommendShortlist allCostumes quiz g gf)
      llmRaw with _ | llmRecs
  · dsimp only
    obtain ⟨a, b, c3, rest, hcand, hfb⟩ := generateFallbackRecommendations_of_three rho
      (recommendShortlist allCostumes quiz g gf) quiz hslen
    rw [hfb]
    dsimp only
    refine ⟨_, rfl, rfl, ?_⟩
    rw [hcand] at hsids
    have hmapeq : ([generateFallbackRecommendation rho a.costume quiz,
        generateFallbackRecommendation (fun k => rho (4 + k)) b.costume quiz,
        generateFallbackRecommendation (fun k => rho (8 + k)) c3.costume quiz].map
      (fun r => r.costumeId)) = [a.costume.id, b.costume.id, c3.costume.id] := rfl
    rw [hmapeq]
    have hsub : [a.costume.id, b.costume.id, c3.costume.id] <+
        (a :: b :: c3 :: rest).map (fun sc => sc.costume.id) := by
      simp only [List.map_cons]
      exact (((List.nil_sublist _).cons₂ _).cons₂ _).cons₂ _
    exact hsids.sublist hsub
  · dsimp only
    have hvalid := generateRecommendations_some _ _ _ _ hgen
    obtain ⟨hlen3, hnodups, hmem⟩ := validLlmOutput_facts _ _ _ hvalid
    obtain ⟨helen, heids⟩ := enrich_facts llmRecs _ hmem
    refine ⟨_, rfl, ?_, ?_⟩
    · rw [helen, hlen3]
    · rw [heids]
      exact hnodups

/-- A three-costume catalog with distinct ids. -/
def cat3 : List Costume :=
  [mkCostume "a" .movie 5, mkCostume "b" .movie 5, mkCostume "c" .movie 5]

/-- C1 witness: on the three-costume catalog with the permissive quiz the
relaxed pool has 3 entries, and with a failed generator the route still
returns 3 distinct recommendations. -/
theorem recommend_three_distinct_witness :
    ∃ resp, recommendRoute cat3 quiz0 (fun _ _ => 0) 0 (fun _ => 0) [] none =
        .ok resp ∧
      resp.recommendations.length = 3 ∧
      (resp.recommendations.map (fun r => r.costumeId)).Nodup :=
  recommend_three_distinct cat3 quiz0 (fun _ _ => 0) 0 (fun _ => 0) [] none
    (by decide) (by decide)

/-- A single-costume catalog. -/
def soloCatalog : List Costume := [mkCostume "solo" .movie 5]

/-- C1 counterexample: a non-empty (single-costume) post-relaxation pool with
a failed generator makes the route surface a 500-style error — the fallback
composer throws on fewer than 3 candidates and the throw escapes to the outer
catch — so the claim "non-empty pool implies exactly 3 recommendations and no
error" is false as stated. -/
theorem recommend_error_with_nonempty_pool :
    (applyRelaxationLadder soloCatalog quiz0 5).costumes ≠ [] ∧
    recommendRoute soloCatalog quiz0 (fun _ _ => 0) 0 (fun _ => 0) [] none =
      .error .internalError :=
  ⟨by decide, rfl⟩

set_option maxHeartbeats 1600000 in
/-- C9 (amended): provided the shortlist reaches 3 entries (relaxed pool ≥ 3
over a duplicate-free catalog), a failed or invalid generator outcome is
recovered locally: the route succeeds with `mode = "fallback"` and its
recommendations are built from the top 3 of the same shortlist; a validated
generator outcome yields `mode = "llm"` (the literal of
`RecommendResponseSchema`, not `"generated"`).  The failure is reported only
through the mode field. -/
theorem recommend_mode_field (allCostumes : List Costume) (quiz : QuizResponse)
    (g : ℕ → ℕ → ℕ) (gf : ℕ) (rho : ℕ → ℕ) (banned : List String)
    (llmRaw : Option (List LlmSelection))
    (hids : (allCostumes.map (fun c => c.id)).Nodup)
    (hpool : 3 ≤ (applyRelaxationLadder allCostumes quiz 5).costumes.length) :
    (generateRecommendations banned (recommendShortlist allCostumes quiz g gf)
        llmRaw = none →
      ∃ resp, recommendRoute allCostumes quiz g gf rho banned llmRaw = .ok resp ∧
        resp.meta.mode = "fallback" ∧
        resp.recommendations.map (fun r => r.costumeId) =
          ((recommendShortlist allCostumes quiz g gf).take 3).map
            (fun sc => sc.costume.id)) ∧
    (∀ llmRecs, generateRecommendations banned (recommendShortlist allCostumes quiz g gf)
        llmRaw = some llmRecs →
      ∃ resp, recommendRoute allCostumes quiz g gf rho banned llmRaw = .ok resp ∧
        resp.meta.mode = "llm") := by
  obtain ⟨hslen, _⟩ := recommendShortlist_facts allCostumes quiz g gf hids hpool
  have hne : (applyRelaxationLadder allCostumes quiz 5).costumes.isEmpty = false := by
    rcases hl : (applyRelaxationLadder allCostumes quiz 5).costumes with _ | ⟨a, t⟩
    · rw [hl] at hpool
      simp at hpool
    · rfl
  constructor
  · intro hgen
    unfold recommendRoute
    simp only [hne, Bool.false_eq_true, if_false]
    rw [hgen]
    dsimp only
    obtain ⟨a, b, c3, rest, hcand, hfb⟩ := generateFallbackRecommendations_of_three rho
      (recommendShortlist allCostumes quiz g gf) quiz hslen
    rw [hfb]
    dsimp only
    refine ⟨_, rfl, rfl, ?_⟩
    rw [hcand]
    rfl
  · intro llmRecs hgen
    unfold recommendRoute
    simp only [hne, Bool.false_eq_true, if_false]
    rw [hgen]
    dsimp only
    exact ⟨_, rfl, rfl⟩

/-- C9 counterexample: on a single-costume catalog the relaxed pool is
non-empty, the generator call fails, and the route does *not* recover through
the fallback composer: the failure escapes as the catch-all error — refuting
the claim that a generator failure is never surfaced to the caller and is
reported only through the mode field. -/
theorem recommend_generator_failure_surfaces_error :
    generateRecommendations []
      (recommendShortlist soloCatalog quiz0 (fun _ _ => 0) 0) none = none ∧
    (applyRelaxationLadder soloCatalog quiz0 5).costumes.length = 1 ∧
    recommendRoute soloCatalog quiz0 (fun _ _ => 0) 0 (fun _ => 0) [] none =
      .error .internalError :=
  ⟨rfl, by decide, rfl⟩

/-- C9 witness: the mode theorem instantiated on the three-costume catalog
with a failed generator: the route succeeds in fallback mode over the same
shortlist. -/
theorem recommend_mode_field_witness :
    ∃ resp, recommendRoute cat3 quiz0 (fun _ _ => 0) 0 (fun _ => 0) [] none =
        .ok resp ∧
      resp.meta.mode = "fallback" ∧
      resp.recommendations.map (fun r => r.costumeId) =
        ((recommendShortlist cat3 quiz0 (fun _ _ => 0) 0).take 3).map
          (fun sc => sc.costume.id) :=
  (recommend_mode_field cat3 quiz0 (fun _ _ => 0) 0 (fun _ => 0) [] none
    (by decide) (by decide)).1 rfl
